import Mathlib

/-!
Shallow embedding of the EMM procedure failure-rate analyzers of
mobileinsight-core (src/mobile_insight/analyzer/kpi/*.py) and proofs about
them.  Python messages are modelled as lists of XML `field` nodes with the
four attributes the analyzers read (`name`, `show`, `showname`, `value`);
timestamps are integers counting seconds, with `datetime.datetime.min`
embedded as the (far negative) constant `datetimeMin`.  Python exceptions
(`TypeError` on `x in None`, `NameError` on unbound locals,
`AttributeError` on `None.iter`) are modelled with `Except`.
-/

set_option maxHeartbeats 1000000

/-- Is `pat` a prefix of `l`? -/
def charsPrefix : List Char → List Char → Bool
  | _, [] => true
  | [], _ :: _ => false
  | a :: as, b :: bs => a == b && charsPrefix as bs

/-- Does `l` contain `pat` as a contiguous sublist? -/
def charsContain (l pat : List Char) : Bool :=
  charsPrefix l pat ||
    match l with
    | [] => false
    | _ :: t => charsContain t pat

/-- Python substring test `pat in s` (the empty pattern is contained in
every string). -/
def containsSub (s pat : String) : Bool := charsContain s.data pat.data

/-- Python `str.lower()` (ASCII). -/
def lowerStr (s : String) : String := ⟨s.data.map Char.toLower⟩

/-- Python truthiness of an optional string attribute: absent and empty are falsy. -/
def truthy : Option String → Bool
  | none => false
  | some s => s ≠ ""

/-- Python `str(x)` applied to an optional attribute: `str(None) = "None"`. -/
def pyStr : Option String → String
  | none => "None"
  | some s => s

/-- A Python local that holds either an `int` or a `str`
(`cause_idx = -1` initially, later `str(...)`). -/
def PyIS := Int ⊕ String
deriving DecidableEq, Repr

/-- Python `==` between such a value and an `int` literal: a `str` never equals an `int`. -/
def pyEqInt : PyIS → Int → Bool
  | Sum.inl n, m => n == m
  | Sum.inr _, _ => false

/-- `datetime.datetime.min` (0001-01-01) in seconds relative to the Unix epoch. -/
def datetimeMin : Int := -62135596800

/-- One XML `field` element with the attributes the analyzers read. -/
structure XmlField where
  name     : Option String
  show_    : Option String
  showname : Option String
  value    : Option String
deriving DecidableEq, Repr

/-- The three `type_id` values the analyzers dispatch on. -/
inductive MsgType where
  | emmIn | emmOut | rrc
deriving DecidableEq, Repr

/-- One delivered message: `type_id`, `timestamp`, and the flattened
document-order list of `field` elements of its decoded `Msg` payload. -/
structure Msg where
  typeId    : MsgType
  timestamp : Int
  fields    : List XmlField
deriving DecidableEq, Repr

/-- A value passed to `store_kpi`: some call sites pass `str(counter)`,
others pass the raw integer counter. -/
inductive KpiVal where
  | s : String → KpiVal
  | i : Nat → KpiVal
deriving DecidableEq, Repr

/-- One `store_kpi(name, value, timestamp)` call. -/
structure KpiRec where
  name  : String
  value : KpiVal
  ts    : Int
deriving DecidableEq, Repr

/-- Python exceptions that can escape a callback. -/
inductive PyErr where
  | typeError | nameError | attributeError
deriving DecidableEq, Repr

/-! ## Identification analyzer (identification_analyzer.py) -/

/-- `kpi_measurements["failure_number"]` of the Identification analyzer. -/
structure IdKpis where
  COLLISION : Nat
  TRANSMISSION_TAU : Nat
  TRANSMISSION_SERVICE : Nat
  TIMEOUT : Nat
  CONCURRENT : Nat
  UNAVAILABLE : Nat
  HANDOVER : Nat
deriving DecidableEq, Repr

/-- Mutable state of `IdentificationAnalyzer`. `prev_attach_log` collapses the
Python values `None` and `False` (both lack `.iter` and are falsy) to `none`. -/
structure IdState where
  kpi : IdKpis
  identify_req_timestamp : Option Int
  attach_req_timestamp : Option Int
  pending_id : Bool
  pending_attach : Bool
  pending_service : Bool
  pending_TAU : Bool
  timeouts : Nat
  prev_attach_log : Option (List XmlField)
  threshold : Int
  hoIdentification : Int
  hoSecurity : Int
  hoGUTI : Int
  hoAuthentication : Int
  hoDetach : Int
  hoTAU : Int
deriving DecidableEq, Repr

/-- `IdentificationAnalyzer.__init__` (lines 34-47): `threshold = 30`,
all handover timestamps `datetime.datetime.min`. -/
def idInit : IdState :=
  { kpi := ⟨0, 0, 0, 0, 0, 0, 0⟩
    identify_req_timestamp := none
    attach_req_timestamp := none
    pending_id := false
    pending_attach := false
    pending_service := false
    pending_TAU := false
    timeouts := 0
    prev_attach_log := none
    threshold := 30
    hoIdentification := datetimeMin
    hoSecurity := datetimeMin
    hoGUTI := datetimeMin
    hoAuthentication := datetimeMin
    hoDetach := datetimeMin
    hoTAU := datetimeMin }

/-- `IdentificationAnalyzer.__reset_parameters`. -/
def idReset (s : IdState) : IdState :=
  { s with
      timeouts := 0, pending_id := false, pending_attach := false,
      pending_service := false, pending_TAU := false, prev_attach_log := none,
      identify_req_timestamp := none, hoIdentification := datetimeMin }

/-- The seven mandatory-IE keys the Identification analyzer compares on a
second Attach Request (lines 183-212); a Python dict entry is `some v`
(`v` the possibly missing `showname`), absence of the key is `none`. -/
structure IdAttachIE where
  l3  : Option (Option String)
  sht : Option (Option String)
  emm : Option (Option String)
  att : Option (Option String)
  ksi : Option (Option String)
  tid : Option (Option String)
  esm : Option (Option String)
deriving DecidableEq, Repr

/-- Build the Identification analyzer's Attach fingerprint from a field list. -/
def idAttachIE (fs : List XmlField) : IdAttachIE :=
  fs.foldl (fun a f =>
    if f.name == some "gsm_a.L3_protocol_discriminator" then { a with l3 := some f.showname }
    else if f.name == some "nas_eps.security_header_type" then { a with sht := some f.showname }
    else if f.name == some "nas_eps.nas_msg_emm_type" then { a with emm := some f.showname }
    else if f.name == some "nas_eps.emm.eps_att_type" then { a with att := some f.showname }
    else if f.name == some "nas_eps.emm.nas_key_set_id" then { a with ksi := some f.showname }
    else if f.name == some "nas_eps.emm.type_of_id" then { a with tid := some f.showname }
    else if f.name == some "nas_eps.emm.esm_msg_cont" then { a with esm := some f.showname }
    else a) ⟨none, none, none, none, none, none, none⟩

/-- State paired with the `store_kpi` calls made so far while handling a message. -/
abbrev IdPack := IdState × List KpiRec

/-- Incoming-EMM handling of one `field` element (lines 96-157). -/
def idFieldIn (p : IdPack) (now : Int) (f : XmlField) : Except PyErr IdPack :=
  let s := p.1
  if f.name == some "nas_eps.nas_msg_emm_type" then
    if f.show_ == some "68" then
      .ok ({ s with pending_attach := false }, p.2)
    else if f.show_ == some "69" then
      .ok ({ s with hoDetach := now }, p.2)
    else if f.show_ == some "70" then
      .ok ({ s with hoDetach := datetimeMin }, p.2)
    else if f.show_ == some "75" then
      .ok ({ s with pending_TAU := false, hoTAU := datetimeMin }, p.2)
    else if f.show_ == some "78" || f.show_ == some "79" then
      .ok ({ s with pending_service := false }, p.2)
    else if f.show_ == some "80" then
      .ok ({ s with hoGUTI := now }, p.2)
    else if f.show_ == some "82" then
      .ok ({ s with hoAuthentication := now }, p.2)
    else if f.show_ == some "84" then
      .ok ({ s with hoAuthentication := datetimeMin }, p.2)
    else if f.show_ == some "85" then
      -- lines 124-154: the three elif arms, the strike check, then re-arm
      let step1 : Except PyErr IdPack :=
        if s.pending_id && s.pending_service then
          match s.identify_req_timestamp with
          | none => .error .nameError  -- `delta` unbound at the window test
          | some t =>
            let delta := now - t
            if 0 ≤ delta ∧ delta ≤ s.threshold then
              let k := s.kpi.TRANSMISSION_SERVICE + 1
              let s := { s with kpi := { s.kpi with TRANSMISSION_SERVICE := k } }
              .ok (idReset s, p.2 ++ [⟨"KPI_Retainability_IDENTIFY_TRANSMISSION_SERVICE_FAILURE", .s (toString k), now⟩])
            else .ok (s, p.2)
        else if s.pending_id && s.pending_TAU then
          match s.identify_req_timestamp with
          | none => .error .nameError
          | some t =>
            let delta := now - t
            if 0 ≤ delta ∧ delta ≤ s.threshold then
              let k := s.kpi.TRANSMISSION_TAU + 1
              let s := { s with kpi := { s.kpi with TRANSMISSION_TAU := k } }
              .ok (idReset s, p.2 ++ [⟨"KPI_Retainability_IDENTIFY_TRANSMISSION_TAU_FAILURE", .s (toString k), now⟩])
            else .ok (s, p.2)
        else if s.identify_req_timestamp.isSome && s.pending_id then
          match s.identify_req_timestamp with
          | none => .error .nameError
          | some t =>
            let delta := now - t
            if 0 ≤ delta ∧ delta ≤ s.threshold then
              .ok ({ s with timeouts := s.timeouts + 1 }, p.2)
            else .ok ({ s with timeouts := 0 }, p.2)
        else .ok (s, p.2)
      match step1 with
      | .error e => .error e
      | .ok (s, pubs) =>
        let (s, pubs) :=
          if s.timeouts == 5 then
            let k := s.kpi.TIMEOUT + 1
            let s := { s with kpi := { s.kpi with TIMEOUT := k } }
            (idReset s, pubs ++ [⟨"KPI_Retainability_IDENTIFY_TIMEOUT_FAILURE", .s (toString k), now⟩])
          else (s, pubs)
        .ok ({ s with
                 pending_id := true, identify_req_timestamp := some now,
                 hoIdentification := now }, pubs)
    else if f.show_ == some "93" then
      .ok ({ s with hoSecurity := now }, p.2)
    else .ok p
  else .ok p

/-- Outgoing-EMM handling of one `field` element (lines 166-276); `fields` is
the whole message, iterated by the nested subfield loops. -/
def idFieldOut (p : IdPack) (now : Int) (fields : List XmlField) (f : XmlField) : Except PyErr IdPack :=
  let s := p.1
  if f.name == some "nas_eps.nas_msg_emm_type" then
    if f.show_ == some "65" then
      let step1 : Except PyErr IdPack :=
        if s.pending_id && !s.pending_attach then
          match s.identify_req_timestamp with
          | none => .error .typeError  -- `curr_timestamp - None`
          | some t =>
            let delta := now - t
            if 0 ≤ delta ∧ delta ≤ s.threshold then
              let k := s.kpi.COLLISION + 1
              let s := { s with kpi := { s.kpi with COLLISION := k } }
              .ok (idReset s, p.2 ++ [⟨"KPI_Retainability_IDENTIFY_COLLISION_FAILURE", .s (toString k), now⟩])
            else .ok (s, p.2)
        else if s.pending_id && s.pending_attach then
          match s.identify_req_timestamp with
          | none => .error .typeError
          | some t =>
            let delta := now - t
            if 0 ≤ delta ∧ delta ≤ s.threshold then
              match s.prev_attach_log with
              | none => .error .attributeError  -- `None.iter` / `False.iter`
              | some L =>
                if idAttachIE L ≠ idAttachIE fields then
                  let k := s.kpi.CONCURRENT + 1
                  let s := { s with kpi := { s.kpi with CONCURRENT := k } }
                  .ok (idReset s, p.2 ++ [⟨"KPI_Retainability_IDENTIFY_CONCURRENT_FAILURE", .s (toString k), now⟩])
                else .ok (s, p.2)
            else .ok (s, p.2)
        else .ok (s, p.2)
      match step1 with
      | .error e => .error e
      | .ok (s, pubs) =>
        .ok ({ s with
                 attach_req_timestamp := some now, pending_attach := true,
                 prev_attach_log := some fields }, pubs)
    else if f.show_ == some "67" then
      .ok ({ s with
               pending_attach := false, prev_attach_log := none,
               attach_req_timestamp := none }, p.2)
    else if f.show_ == some "69" then
      if s.pending_id then
        match s.identify_req_timestamp with
        | none => .error .typeError
        | some t =>
          let delta := now - t
          if 0 ≤ delta ∧ delta ≤ s.threshold then
            -- lines 230-235: one increment per subfield with "Switch off"
            .ok (fields.foldl (fun (q : IdPack) sub =>
              if truthy sub.showname &&
                 containsSub (pyStr sub.showname) "Switch off" then
                let k := q.1.kpi.COLLISION + 1
                let s1 := { q.1 with kpi := { q.1.kpi with COLLISION := k } }
                (idReset s1, q.2 ++ [⟨"KPI_Retainability_IDENTIFY_COLLISION_FAILURE", .i k, now⟩])
              else q) p)
          else .ok (s, p.2)
      else .ok p
    else if f.show_ == some "70" then
      .ok ({ s with hoDetach := datetimeMin }, p.2)
    else if f.show_ == some "72" then
      .ok ({ s with
               pending_TAU := (if !s.pending_id then true else s.pending_TAU),
               hoTAU := now }, p.2)
    else if f.show_ == some "74" then
      .ok ({ s with pending_TAU := false, hoTAU := datetimeMin }, p.2)
    else if f.show_ == some "81" then
      .ok ({ s with hoGUTI := datetimeMin }, p.2)
    else if f.show_ == some "83" || f.show_ == some "92" then
      .ok ({ s with hoAuthentication := datetimeMin }, p.2)
    else if f.show_ == some "86" then
      .ok (idReset s, p.2)
    else if f.show_ == some "94" || f.show_ == some "95" then
      .ok ({ s with hoSecurity := datetimeMin }, p.2)
    else if f.show_ == some "255" && !s.pending_id then
      .ok ({ s with pending_service := true }, p.2)
    else .ok p
  else if f.name == some "gsm_a.ie.mobileid.type" then
    match f.showname with
    | none => .error .typeError  -- `"no identity" in None`
    | some mt =>
      if containsSub mt "no identity" then
        let k := s.kpi.UNAVAILABLE + 1
        let s := { s with kpi := { s.kpi with UNAVAILABLE := k } }
        .ok (idReset s, p.2 ++ [⟨"KPI_Retainability_IDENTIFY_UNAVAILABLE_FAILURE", .i k, now⟩])
      else if !containsSub mt "IMEISV" && !containsSub mt "TMSI/P-TMSI/M-TMSI" &&
              !containsSub mt "IMSI" then
        let k := s.kpi.UNAVAILABLE + 1
        let s := { s with kpi := { s.kpi with UNAVAILABLE := k } }
        .ok (idReset s, p.2 ++ [⟨"KPI_Retainability_IDENTIFY_UNAVAILABLE_FAILURE", .i k, now⟩])
      else .ok p
  else .ok p

/-- Maximum of the Identification analyzer's handover table (line 287). -/
def idMax (s : IdState) : Int :=
  max s.hoIdentification (max s.hoSecurity (max s.hoGUTI
    (max s.hoAuthentication (max s.hoDetach s.hoTAU))))

/-- RRC handling of one `field` element (lines 283-293). -/
def idFieldRrc (p : IdPack) (now : Int) (f : XmlField) : Except PyErr IdPack :=
  let s := p.1
  if f.name == some "lte-rrc.reestablishmentCause" then
    match f.showname with
    | none => .error .typeError  -- `"handoverFailure" in None`
    | some sn =>
      if containsSub sn "handoverFailure" then
        if s.hoIdentification = idMax s then
          let delta := now - s.hoIdentification
          if 0 ≤ delta ∧ delta ≤ 600 then
            let k := s.kpi.HANDOVER + 1
            let s := { s with kpi := { s.kpi with HANDOVER := k } }
            .ok (idReset s, p.2 ++ [⟨"KPI_Retainability_IDENTIFY_HANDOVER_FAILURE", .i k, now⟩])
          else .ok p
        else .ok p
      else .ok p
  else .ok p

/-- `IdentificationAnalyzer.__emm_sr_callback` on one message. -/
def idHandleMsg (s : IdState) (m : Msg) : Except PyErr IdPack :=
  match m.typeId with
  | .emmIn  => m.fields.foldlM (fun p f => idFieldIn p m.timestamp f) (s, [])
  | .emmOut => m.fields.foldlM (fun p f => idFieldOut p m.timestamp m.fields f) (s, [])
  | .rrc    => m.fields.foldlM (fun p f => idFieldRrc p m.timestamp f) (s, [])

/-- Run the Identification analyzer over a trace, accumulating publications. -/
def idRun (s : IdState) : List Msg → Except PyErr IdPack
  | [] => .ok (s, [])
  | m :: ms => do
    let (s1, p1) ← idHandleMsg s m
    let (s2, p2) ← idRun s1 ms
    return (s2, p1 ++ p2)

/-- A single-field incoming EMM message of the given type code. -/
def emmInMsg (code : String) (t : Int) : Msg :=
  ⟨.emmIn, t, [⟨some "nas_eps.nas_msg_emm_type", some code, none, none⟩]⟩

/-! ## Attach failure-rate analyzer (attach_fr_analyzer.py) -/

/-- `kpi_measurements["failure_number"]` of `AttachFrAnalyzer`. -/
structure AttachKpis where
  TIMEOUT : Nat
  CONCURRENT : Nat
  DETACH : Nat
  PROTOCOL_ERROR : Nat
  EMM : Nat
deriving DecidableEq, Repr

/-- Mutable state of `AttachFrAnalyzer` (its `handover_timestamps` dict is
initialised but never used by the callback and is omitted). -/
structure AttachState where
  kpi : AttachKpis
  attach_req_timestamp : Option Int
  attach_accept_timestamp : Option Int
  pending_attach : Bool
  accepting_attach : Bool
  prev_log : Option (List XmlField)
  timeouts : Nat
  threshold : Int
deriving DecidableEq, Repr

/-- `AttachFrAnalyzer.__init__` (lines 59-67): `threshold = 30`. -/
def attachInit : AttachState :=
  { kpi := ⟨0, 0, 0, 0, 0⟩
    attach_req_timestamp := none
    attach_accept_timestamp := none
    pending_attach := false
    accepting_attach := false
    prev_log := none
    timeouts := 0
    threshold := 30 }

/-- The mandatory-IE keys `AttachFrAnalyzer` compares on a second Attach
Request (lines 196-225): four `name`-keyed entries plus three `show`-keyed
subtree entries.  (This is the TAU-style key set, not the seven-name set
used by the Identification analyzer.) -/
structure AttachFrIE where
  att    : Option (Option String)
  esm    : Option (Option String)
  tid    : Option (Option String)
  uus    : Option (Option String)
  mobid  : Option (Option String)
  netcap : Option (Option String)
  drx    : Option (Option String)
deriving DecidableEq, Repr

/-- Build `AttachFrAnalyzer`'s fingerprint from a field list. -/
def attachFrIE (fs : List XmlField) : AttachFrIE :=
  fs.foldl (fun a f =>
    if f.name == some "nas_eps.emm.eps_att_type" then { a with att := some f.showname }
    else if f.name == some "nas_eps.emm.esm_msg_cont" then { a with esm := some f.showname }
    else if f.name == some "nas_eps.emm.type_of_id" then { a with tid := some f.showname }
    else if f.name == some "gsm_a.gm.gmm.ue_usage_setting" then { a with uus := some f.showname }
    else if f.show_ == some "EPS mobile identity" then { a with mobid := some f.showname }
    else if f.show_ == some "UE network capability" then { a with netcap := some f.showname }
    else if f.show_ == some "DRX parameter" then { a with drx := some f.showname }
    else a) ⟨none, none, none, none, none, none, none⟩

abbrev AttachPack := AttachState × List KpiRec

/-- Per-iteration body of the detach-type scan in the incoming `value == '69'`
branch (lines 158-164): `detach_type` and `cause_idx` are re-initialised every
iteration, and the `elif` arm reads the unbound local `child_field`
(a `NameError` in a callback that did not first process an Attach Reject).
This predicate says an iteration reaches that `elif` arm. -/
def attachScanHitsCause (sub : XmlField) : Bool :=
  !(truthy sub.showname && containsSub (lowerStr (pyStr sub.showname)) "re-attach") &&
  sub.name == some "nas_eps.emm.cause"

/-- The surviving `detach_type` value of one iteration of that scan. -/
def attachScanVal (sub : XmlField) : String :=
  if truthy sub.showname && containsSub (lowerStr (pyStr sub.showname)) "re-attach" then
    lowerStr (pyStr sub.showname)
  else ""

/-- The whole scan: a `NameError` if any iteration reads `child_field` (or if
the list is empty, leaving `detach_type` unbound at the condition); otherwise
only the last iteration's `detach_type` survives. -/
def attachScan69 (fs : List XmlField) : Except PyErr String :=
  if fs.any attachScanHitsCause then .error .nameError
  else match fs.getLast? with
       | none => .error .nameError
       | some sub => .ok (attachScanVal sub)

/-- Incoming-EMM handling of one `field` element of `AttachFrAnalyzer`
(lines 106-174).  Note the Attach Accept arm keys on `show == '66'` but the
Reject and Detach arms key on the `value` attribute. -/
def attachFieldIn (p : AttachPack) (now : Int) (fields : List XmlField) (f : XmlField) :
    Except PyErr AttachPack :=
  let s := p.1
  if f.name == some "nas_eps.nas_msg_emm_type" then
    if f.show_ == some "66" && s.pending_attach then
      let s :=
        match s.attach_accept_timestamp with
        | none => s
        | some t =>
          let delta := now - t
          if 0 ≤ delta ∧ delta ≤ s.threshold then { s with timeouts := s.timeouts + 1 }
          else { s with timeouts := 0 }
      let (s, pubs) :=
        if s.timeouts == 5 then
          let k := s.kpi.TIMEOUT + 1
          let s := { s with
                       kpi := { s.kpi with TIMEOUT := k }, accepting_attach := false,
                       prev_log := none, timeouts := 0, attach_accept_timestamp := none }
          (s, p.2 ++ [⟨"KPI_Retainability_ATTACH_TIMEOUT_FAILURE", .s (toString k), now⟩])
        else (s, p.2)
      .ok ({ s with
               accepting_attach := true, attach_accept_timestamp := some now,
               prev_log := some fields, pending_attach := false,
               attach_req_timestamp := none }, pubs)
    else if f.value == some "68" then
      -- Attach Reject: classify every nas_eps.emm.cause subfield
      let (s, pubs) := fields.foldl (fun (q : AttachState × List KpiRec) child =>
        if child.name == some "nas_eps.emm.cause" then
          let cause_idx := pyStr child.show_
          if cause_idx ∈ ["96", "99", "100", "111"] then
            let k := q.1.kpi.PROTOCOL_ERROR + 1
            ({ q.1 with kpi := { q.1.kpi with PROTOCOL_ERROR := k } },
             q.2 ++ [⟨"KPI_Retainability_ATTACH_PROTOCOL_ERROR_FAILURE", .s (toString k), now⟩])
          else if cause_idx == "22" then
            fields.foldl (fun (r : AttachState × List KpiRec) sub =>
              if truthy sub.showname && containsSub (pyStr sub.showname) "T3346" then
                let k := r.1.kpi.EMM + 1
                ({ r.1 with kpi := { r.1.kpi with EMM := k } },
                 r.2 ++ [⟨"KPI_Retainability_ATTACH_EMM_FAILURE", .s (toString k), now⟩])
              else r) q
          else
            let k := q.1.kpi.EMM + 1
            ({ q.1 with kpi := { q.1.kpi with EMM := k } },
             q.2 ++ [⟨"KPI_Retainability_ATTACH_EMM_FAILURE", .s (toString k), now⟩])
        else q) (s, p.2)
      .ok ({ s with
               pending_attach := false, accepting_attach := false,
               attach_accept_timestamp := none, attach_req_timestamp := none,
               timeouts := 0, prev_log := none }, pubs)
    else if f.value == some "69" then
      if s.pending_attach && s.attach_req_timestamp.isSome then
        match attachScan69 fields with
        | .error e => .error e
        | .ok detach_type =>
          -- line 166: `cause_idx` is the unassigned initial `-1`, so `!= 2` holds
          if (containsSub detach_type "re-attach not required" ∧
                pyEqInt (Sum.inl (-1)) 2 = false) ∨
             containsSub detach_type "re-attach required" then
            let k := s.kpi.DETACH + 1
            let s := { s with kpi := { s.kpi with DETACH := k } }
            -- line 168: publishes the CONCURRENT counter's value
            .ok ({ s with
                     timeouts := 0, pending_attach := false, accepting_attach := false,
                     prev_log := none, attach_req_timestamp := none,
                     attach_accept_timestamp := none },
                 p.2 ++ [⟨"KPI_Retainability_ATTACH_DETACH_FAILURE",
                          .s (toString s.kpi.CONCURRENT), now⟩])
          else .ok (s, p.2)
      else .ok p
    else .ok p
  else .ok p

/-- Outgoing-EMM handling of one `field` element of `AttachFrAnalyzer`
(lines 181-282). -/
def attachFieldOut (p : AttachPack) (now : Int) (fields : List XmlField) (f : XmlField) :
    Except PyErr AttachPack :=
  let s := p.1
  if f.name == some "nas_eps.nas_msg_emm_type" then
    if f.show_ == some "65" then
      let step1 : Except PyErr AttachPack :=
        if s.pending_attach || s.accepting_attach then
          let mdelta : Except PyErr Int :=
            if s.pending_attach then
              match s.attach_req_timestamp with
              | none => .error .typeError
              | some t => .ok (now - t)
            else
              match s.attach_accept_timestamp with
              | none => .error .typeError
              | some t => .ok (now - t)
          match mdelta with
          | .error e => .error e
          | .ok delta =>
            if 0 ≤ delta ∧ delta ≤ s.threshold then
              match s.prev_log with
              | none => .error .attributeError
              | some L =>
                if attachFrIE L ≠ attachFrIE fields then
                  let k := s.kpi.CONCURRENT + 1
                  let s := { s with kpi := { s.kpi with CONCURRENT := k } }
                  .ok ({ s with
                           timeouts := 0, pending_attach := false,
                           accepting_attach := false, prev_log := none,
                           attach_accept_timestamp := none, attach_req_timestamp := none },
                       p.2 ++ [⟨"KPI_Retainability_ATTACH_CONCURRENT_FAILURE",
                                .s (toString k), now⟩])
                else .ok (s, p.2)
            else .ok (s, p.2)
        else .ok (s, p.2)
      match step1 with
      | .error e => .error e
      | .ok (s, pubs) =>
        let s :=
          match s.attach_req_timestamp with
          | none => s
          | some t =>
            let delta := now - t
            if 0 ≤ delta ∧ delta ≤ s.threshold then { s with timeouts := s.timeouts + 1 }
            else { s with timeouts := 0 }
        let (s, pubs) :=
          if s.timeouts == 5 then
            let k := s.kpi.TIMEOUT + 1
            let s := { s with
                         kpi := { s.kpi with TIMEOUT := k }, timeouts := 0,
                         pending_attach := false, accepting_attach := false,
                         prev_log := none, attach_accept_timestamp := none,
                         attach_req_timestamp := none }
            (s, pubs ++ [⟨"KPI_Retainability_ATTACH_TIMEOUT_FAILURE", .s (toString k), now⟩])
          else (s, pubs)
        .ok ({ s with
                 pending_attach := true, attach_req_timestamp := some now,
                 prev_log := some fields }, pubs)
    else if f.show_ == some "67" then
      match s.attach_accept_timestamp with
      | none => .ok p
      | some t =>
        let delta := now - t
        if 0 ≤ delta ∧ delta ≤ s.threshold then
          .ok ({ s with
                   accepting_attach := false, attach_accept_timestamp := none,
                   timeouts := 0, prev_log := none }, p.2)
        else .ok p
    else if f.show_ == some "69" then
      if s.pending_attach || s.accepting_attach then
        let mdelta : Except PyErr Int :=
          if s.pending_attach then
            match s.attach_req_timestamp with
            | none => .error .typeError
            | some t => .ok (now - t)
          else
            match s.attach_accept_timestamp with
            | none => .error .typeError
            | some t => .ok (now - t)
        match mdelta with
        | .error e => .error e
        | .ok delta =>
          if 0 ≤ delta ∧ delta ≤ s.threshold then
            let k := s.kpi.DETACH + 1
            let s := { s with kpi := { s.kpi with DETACH := k } }
            .ok ({ s with
                     accepting_attach := false, pending_attach := false,
                     prev_log := none, timeouts := 0,
                     attach_accept_timestamp := none, attach_req_timestamp := none },
                 p.2 ++ [⟨"KPI_Retainability_ATTACH_DETACH_FAILURE", .s (toString k), now⟩])
          else .ok (s, p.2)
      else .ok p
    else .ok p
  else .ok p

/-- `AttachFrAnalyzer.__emm_sr_callback` on one message (it has no RRC branch). -/
def attachHandleMsg (s : AttachState) (m : Msg) : Except PyErr AttachPack :=
  match m.typeId with
  | .emmIn  => m.fields.foldlM (fun p f => attachFieldIn p m.timestamp m.fields f) (s, [])
  | .emmOut => m.fields.foldlM (fun p f => attachFieldOut p m.timestamp m.fields f) (s, [])
  | .rrc    => .ok (s, [])

/-- Run the Attach analyzer over a trace, accumulating publications. -/
def attachRun (s : AttachState) : List Msg → Except PyErr AttachPack
  | [] => .ok (s, [])
  | m :: ms => do
    let (s1, p1) ← attachHandleMsg s m
    let (s2, p2) ← attachRun s1 ms
    return (s2, p1 ++ p2)

/-! ## TAU failure-rate analyzer (tau_fr_analyzer.py) -/

/-- `kpi_measurements["failure_number"]` of `TauFrAnalyzer`. -/
structure TauKpis where
  CONCURRENT : Nat
  PROTOCOL_ERROR : Nat
  TIMEOUT : Nat
  DETACH : Nat
  EMM : Nat
  HANDOVER : Nat
deriving DecidableEq, Repr

/-- Mutable state of `TauFrAnalyzer`. -/
structure TauState where
  kpi : TauKpis
  TAU_req_timestamp : Option Int
  TAU_accept_timestamp : Option Int
  pending_TAU : Bool
  accepting_TAU : Bool
  timeouts : Nat
  prev_log : Option (List XmlField)
  threshold : Int
  hoIdentification : Int
  hoSecurity : Int
  hoGUTI : Int
  hoAuthentication : Int
  hoDetach : Int
  hoTAU : Int
deriving DecidableEq, Repr

/-- `TauFrAnalyzer.__init__` (lines 34-47): `threshold = 30`. -/
def tauInit : TauState :=
  { kpi := ⟨0, 0, 0, 0, 0, 0⟩
    TAU_req_timestamp := none
    TAU_accept_timestamp := none
    pending_TAU := false
    accepting_TAU := false
    timeouts := 0
    prev_log := none
    threshold := 30
    hoIdentification := datetimeMin
    hoSecurity := datetimeMin
    hoGUTI := datetimeMin
    hoAuthentication := datetimeMin
    hoDetach := datetimeMin
    hoTAU := datetimeMin }

/-- `TauFrAnalyzer.__reset_parameters`. -/
def tauReset (s : TauState) : TauState :=
  { s with
      timeouts := 0, pending_TAU := false, accepting_TAU := false,
      TAU_req_timestamp := none, TAU_accept_timestamp := none,
      prev_log := none, hoTAU := datetimeMin }

/-- The mandatory-IE keys `TauFrAnalyzer` compares on a second TAU Request
(lines 206-231). -/
structure TauIE where
  esm    : Option (Option String)
  tid    : Option (Option String)
  uus    : Option (Option String)
  mobid  : Option (Option String)
  netcap : Option (Option String)
  drx    : Option (Option String)
deriving DecidableEq, Repr

/-- Build `TauFrAnalyzer`'s fingerprint from a field list. -/
def tauIE (fs : List XmlField) : TauIE :=
  fs.foldl (fun a f =>
    if f.name == some "nas_eps.emm.esm_msg_cont" then { a with esm := some f.showname }
    else if f.name == some "nas_eps.emm.type_of_id" then { a with tid := some f.showname }
    else if f.name == some "gsm_a.gm.gmm.ue_usage_setting" then { a with uus := some f.showname }
    else if f.show_ == some "EPS mobile identity" then { a with mobid := some f.showname }
    else if f.show_ == some "UE network capability" then { a with netcap := some f.showname }
    else if f.show_ == some "DRX parameter" then { a with drx := some f.showname }
    else a) ⟨none, none, none, none, none, none⟩

abbrev TauPack := TauState × List KpiRec

/-- Per-iteration values of the detach-type scan in `TauFrAnalyzer`'s incoming
`show == '69'` branch (lines 101-107): both locals are re-initialised every
iteration, so only the last subfield's values survive. -/
def tauScanStep (sub : XmlField) : String × PyIS :=
  match sub.showname with
  | some sn =>
    if sn ≠ "" ∧ containsSub (lowerStr sn) "re-attach" then (lowerStr sn, Sum.inl (-1))
    else if sub.name == some "nas_eps.emm.cause" then ("", Sum.inr (pyStr sub.show_))
    else ("", Sum.inl (-1))
  | none =>
    if sub.name == some "nas_eps.emm.cause" then ("", Sum.inr (pyStr sub.show_))
    else ("", Sum.inl (-1))

/-- Incoming-EMM handling of one `field` element of `TauFrAnalyzer`
(lines 96-170). -/
def tauFieldIn (p : TauPack) (now : Int) (fields : List XmlField) (f : XmlField) :
    Except PyErr TauPack :=
  let s := p.1
  if f.name == some "nas_eps.nas_msg_emm_type" then
    if f.show_ == some "69" then
      let step1 : Except PyErr TauPack :=
        if s.pending_TAU && s.TAU_req_timestamp.isSome then
          match fields.getLast? with
          | none => .error .nameError  -- `detach_type` unbound after an empty scan
          | some lastSub =>
            let (detach_type, cause_idx) := tauScanStep lastSub
            if (containsSub detach_type "re-attach not required" ∧
                  pyEqInt cause_idx 2 = false) ∨
               containsSub detach_type "re-attach required" then
              let k := s.kpi.DETACH + 1
              let s := { s with kpi := { s.kpi with DETACH := k } }
              -- line 111: publishes the CONCURRENT counter's value
              .ok (tauReset s,
                   p.2 ++ [⟨"KPI_Retainability_TAU_DETACH_FAILURE",
                            .s (toString s.kpi.CONCURRENT), now⟩])
            else .ok (s, p.2)
        else .ok (s, p.2)
      match step1 with
      | .error e => .error e
      | .ok (s, pubs) => .ok ({ s with hoDetach := now }, pubs)
    else if f.show_ == some "70" then
      .ok ({ s with hoDetach := datetimeMin }, p.2)
    else if f.show_ == some "73" then
      let s :=
        if s.accepting_TAU then
          match s.TAU_accept_timestamp with
          | none => s
          | some t =>
            let delta := now - t
            if 0 ≤ delta ∧ delta ≤ s.threshold then { s with timeouts := s.timeouts + 1 }
            else { s with timeouts := 0 }
        else s
      let (s, pubs) :=
        if s.timeouts == 5 then
          let k := s.kpi.TIMEOUT + 1
          let s := { s with kpi := { s.kpi with TIMEOUT := k } }
          (tauReset s, p.2 ++ [⟨"KPI_Retainability_TAU_TIMEOUT_FAILURE", .s (toString k), now⟩])
        else (s, p.2)
      .ok ({ s with
               accepting_TAU := true, TAU_accept_timestamp := some now,
               prev_log := some fields, pending_TAU := false,
               TAU_req_timestamp := none, hoTAU := now }, pubs)
    else if f.show_ == some "75" then
      let (s, pubs) := fields.foldl (fun (q : TauState × List KpiRec) sub =>
        if sub.name == some "nas_eps.emm.cause" then
          let cause_idx := pyStr sub.show_
          if cause_idx ∈ ["96", "99", "100", "111"] then
            let k := q.1.kpi.PROTOCOL_ERROR + 1
            ({ q.1 with kpi := { q.1.kpi with PROTOCOL_ERROR := k } },
             q.2 ++ [⟨"KPI_Retainability_TAU_PROTOCOL_ERROR_FAILURE", .s (toString k), now⟩])
          else if cause_idx == "22" then
            fields.foldl (fun (r : TauState × List KpiRec) sub2 =>
              if truthy sub2.showname && containsSub (pyStr sub2.showname) "T3346" then
                let k := r.1.kpi.EMM + 1
                ({ r.1 with kpi := { r.1.kpi with EMM := k } },
                 r.2 ++ [⟨"KPI_Retainability_TAU_EMM_FAILURE", .s (toString k), now⟩])
              else r) q
          else
            let k := q.1.kpi.EMM + 1
            ({ q.1 with kpi := { q.1.kpi with EMM := k } },
             q.2 ++ [⟨"KPI_Retainability_TAU_EMM_FAILURE", .s (toString k), now⟩])
        else q) (s, p.2)
      .ok (tauReset s, pubs)
    else if f.show_ == some "80" then
      .ok ({ s with hoGUTI := now }, p.2)
    else if f.show_ == some "82" then
      .ok ({ s with hoAuthentication := now }, p.2)
    else if f.show_ == some "84" then
      .ok ({ s with hoAuthentication := datetimeMin }, p.2)
    else if f.show_ == some "85" then
      .ok ({ s with hoIdentification := now }, p.2)
    else if f.show_ == some "93" then
      .ok ({ s with hoSecurity := now }, p.2)
    else .ok p
  else .ok p

/-- Outgoing-EMM handling of one `field` element of `TauFrAnalyzer`
(lines 178-267). -/
def tauFieldOut (p : TauPack) (now : Int) (fields : List XmlField) (f : XmlField) :
    Except PyErr TauPack :=
  let s := p.1
  if f.name == some "nas_eps.nas_msg_emm_type" then
    if f.show_ == some "69" then
      let (s, pubs) :=
        if s.pending_TAU then
          fields.foldl (fun (q : TauState × List KpiRec) sub =>
            if truthy sub.showname && containsSub (pyStr sub.showname) "Switch off" then
              let k := q.1.kpi.DETACH + 1
              let s1 := { q.1 with kpi := { q.1.kpi with DETACH := k } }
              (tauReset s1, q.2 ++ [⟨"KPI_Retainability_TAU_DETACH_FAILURE", .i k, now⟩])
            else q) (s, p.2)
        else (s, p.2)
      .ok ({ s with hoDetach := now }, pubs)
    else if f.show_ == some "70" then
      .ok ({ s with hoDetach := datetimeMin }, p.2)
    else if f.show_ == some "72" then
      let step1 : Except PyErr TauPack :=
        if s.pending_TAU || s.accepting_TAU then
          let mdelta : Except PyErr Int :=
            if s.pending_TAU then
              match s.TAU_req_timestamp with
              | none => .error .typeError
              | some t => .ok (now - t)
            else
              match s.TAU_accept_timestamp with
              | none => .error .typeError
              | some t => .ok (now - t)
          match mdelta with
          | .error e => .error e
          | .ok delta =>
            if 0 ≤ delta ∧ delta ≤ s.threshold then
              match s.prev_log with
              | none => .error .attributeError
              | some L =>
                if tauIE L ≠ tauIE fields then
                  let k := s.kpi.CONCURRENT + 1
                  let s := { s with kpi := { s.kpi with CONCURRENT := k } }
                  .ok (tauReset s,
                       p.2 ++ [⟨"KPI_Retainability_TAU_CONCURRENT_FAILURE",
                                .s (toString k), now⟩])
                else .ok (s, p.2)
            else .ok (s, p.2)
        else .ok (s, p.2)
      match step1 with
      | .error e => .error e
      | .ok (s, pubs) =>
        let s :=
          if s.TAU_req_timestamp.isSome && s.pending_TAU then
            match s.TAU_req_timestamp with
            | none => s
            | some t =>
              let delta := now - t
              if 0 ≤ delta ∧ delta ≤ s.threshold then { s with timeouts := s.timeouts + 1 }
              else { s with timeouts := 0 }
          else s
        let (s, pubs) :=
          if s.timeouts == 5 then
            let k := s.kpi.TIMEOUT + 1
            let s := { s with kpi := { s.kpi with TIMEOUT := k } }
            (tauReset s, pubs ++ [⟨"KPI_Retainability_TAU_TIMEOUT_FAILURE", .s (toString k), now⟩])
          else (s, pubs)
        .ok ({ s with
                 pending_TAU := true, TAU_req_timestamp := some now,
                 prev_log := some fields, hoTAU := now }, pubs)
    else if f.show_ == some "74" then
      match s.TAU_accept_timestamp with
      | none => .ok p
      | some t =>
        let delta := now - t
        if 0 ≤ delta ∧ delta ≤ s.threshold then .ok (tauReset s, p.2)
        else .ok p
    else if f.show_ == some "81" then
      .ok ({ s with hoGUTI := datetimeMin }, p.2)
    else if f.show_ == some "83" || f.show_ == some "92" then
      .ok ({ s with hoAuthentication := datetimeMin }, p.2)
    else if f.show_ == some "86" then
      .ok ({ s with hoIdentification := datetimeMin }, p.2)
    else if f.show_ == some "94" || f.show_ == some "95" then
      .ok ({ s with hoSecurity := datetimeMin }, p.2)
    else .ok p
  else .ok p

/-- Maximum of `TauFrAnalyzer`'s handover table (line 278). -/
def tauMax (s : TauState) : Int :=
  max s.hoIdentification (max s.hoSecurity (max s.hoGUTI
    (max s.hoAuthentication (max s.hoDetach s.hoTAU))))

/-- RRC handling of one `field` element of `TauFrAnalyzer` (lines 274-284). -/
def tauFieldRrc (p : TauPack) (now : Int) (f : XmlField) : Except PyErr TauPack :=
  let s := p.1
  if f.name == some "lte-rrc.reestablishmentCause" then
    match f.showname with
    | none => .error .typeError
    | some sn =>
      if containsSub sn "handoverFailure" then
        if s.hoTAU = tauMax s then
          let delta := now - s.hoTAU
          if 0 ≤ delta ∧ delta ≤ 600 then
            let k := s.kpi.HANDOVER + 1
            let s := { s with kpi := { s.kpi with HANDOVER := k } }
            .ok (tauReset s, p.2 ++ [⟨"KPI_Retainability_TAU_HANDOVER_FAILURE", .i k, now⟩])
          else .ok p
        else .ok p
      else .ok p
  else .ok p

/-- `TauFrAnalyzer.__emm_sr_callback` on one message. -/
def tauHandleMsg (s : TauState) (m : Msg) : Except PyErr TauPack :=
  match m.typeId with
  | .emmIn  => m.fields.foldlM (fun p f => tauFieldIn p m.timestamp m.fields f) (s, [])
  | .emmOut => m.fields.foldlM (fun p f => tauFieldOut p m.timestamp m.fields f) (s, [])
  | .rrc    => m.fields.foldlM (fun p f => tauFieldRrc p m.timestamp f) (s, [])

/-! ## Security mode control analyzer (security_mode_control_fr_analyzer.py) -/

/-- `kpi_measurements["failure_number"]` of `SecurityModeControlFrAnalyzer`. -/
structure SecKpis where
  TRANSMISSION_TAU : Nat
  TRANSMISSION_SERVICE : Nat
  TIMEOUT : Nat
  COLLISION : Nat
  HANDOVER : Nat
deriving DecidableEq, Repr

/-- Mutable state of `SecurityModeControlFrAnalyzer`. -/
structure SecState where
  kpi : SecKpis
  security_mode_timestamp : Option Int
  pending_security_mode : Bool
  pending_service : Bool
  pending_TAU : Bool
  timeouts : Nat
  prev_log : Option (List XmlField)
  threshold : Int
  hoIdentification : Int
  hoSecurity : Int
  hoGUTI : Int
  hoAuthentication : Int
  hoDetach : Int
  hoTAU : Int
deriving DecidableEq, Repr

/-- `SecurityModeControlFrAnalyzer.__init__` (lines 34-45): `threshold = 30`. -/
def secInit : SecState :=
  { kpi := ⟨0, 0, 0, 0, 0⟩
    security_mode_timestamp := none
    pending_security_mode := false
    pending_service := false
    pending_TAU := false
    timeouts := 0
    prev_log := none
    threshold := 30
    hoIdentification := datetimeMin
    hoSecurity := datetimeMin
    hoGUTI := datetimeMin
    hoAuthentication := datetimeMin
    hoDetach := datetimeMin
    hoTAU := datetimeMin }

/-- `SecurityModeControlFrAnalyzer.__reset_parameters`. -/
def secReset (s : SecState) : SecState :=
  { s with
      timeouts := 0, pending_security_mode := false, pending_service := false,
      pending_TAU := false, prev_log := none, security_mode_timestamp := none,
      hoSecurity := datetimeMin }

abbrev SecPack := SecState × List KpiRec

/-- Incoming-EMM handling of one `field` element of
`SecurityModeControlFrAnalyzer` (lines 85-146). -/
def secFieldIn (p : SecPack) (now : Int) (fields : List XmlField) (f : XmlField) :
    Except PyErr SecPack :=
  let s := p.1
  if f.name == some "nas_eps.nas_msg_emm_type" then
    if f.show_ == some "69" then
      .ok ({ s with hoDetach := now }, p.2)
    else if f.show_ == some "70" then
      .ok ({ s with hoDetach := datetimeMin }, p.2)
    else if f.show_ == some "75" then
      .ok ({ s with pending_TAU := false, hoTAU := datetimeMin }, p.2)
    else if f.show_ == some "78" then
      .ok ({ s with pending_service := false }, p.2)
    else if f.show_ == some "79" then
      .ok ({ s with pending_service := false }, p.2)
    else if f.show_ == some "80" then
      .ok ({ s with hoGUTI := now }, p.2)
    else if f.show_ == some "82" then
      .ok ({ s with hoAuthentication := now }, p.2)
    else if f.show_ == some "84" then
      .ok ({ s with hoAuthentication := datetimeMin }, p.2)
    else if f.show_ == some "85" then
      .ok ({ s with hoIdentification := now }, p.2)
    else if f.show_ == some "93" then
      let step1 : Except PyErr SecPack :=
        if s.pending_security_mode && s.pending_service then
          match s.security_mode_timestamp with
          | none => .error .nameError  -- `delta` unbound at the window test
          | some t =>
            let delta := now - t
            if 0 ≤ delta ∧ delta ≤ s.threshold then
              let k := s.kpi.TRANSMISSION_SERVICE + 1
              let s := { s with kpi := { s.kpi with TRANSMISSION_SERVICE := k } }
              .ok (secReset s, p.2 ++ [⟨"KPI_Retainability_SECURITY_TRANSMISSION_SERVICE_FAILURE", .s (toString k), now⟩])
            else .ok (s, p.2)
        else if s.pending_security_mode && s.pending_TAU then
          match s.security_mode_timestamp with
          | none => .error .nameError
          | some t =>
            let delta := now - t
            if 0 ≤ delta ∧ delta ≤ s.threshold then
              let k := s.kpi.TRANSMISSION_TAU + 1
              let s := { s with kpi := { s.kpi with TRANSMISSION_TAU := k } }
              .ok (secReset s, p.2 ++ [⟨"KPI_Retainability_SECURITY_TRANSMISSION_TAU_FAILURE", .s (toString k), now⟩])
            else .ok (s, p.2)
        else if s.pending_security_mode then
          match s.security_mode_timestamp with
          | none => .error .nameError
          | some t =>
            let delta := now - t
            if 0 ≤ delta ∧ delta ≤ s.threshold then
              .ok ({ s with timeouts := s.timeouts + 1 }, p.2)
            else .ok ({ s with timeouts := 0 }, p.2)
        else .ok (s, p.2)
      match step1 with
      | .error e => .error e
      | .ok (s, pubs) =>
        let (s, pubs) :=
          if s.timeouts == 5 then
            let k := s.kpi.TIMEOUT + 1
            let s := { s with kpi := { s.kpi with TIMEOUT := k } }
            (secReset s, pubs ++ [⟨"KPI_Retainability_SECURITY_TIMEOUT_FAILURE", .s (toString k), now⟩])
          else (s, pubs)
        .ok ({ s with
                 security_mode_timestamp := some now, pending_security_mode := true,
                 prev_log := some fields, hoSecurity := now }, pubs)
    else .ok p
  else .ok p

/-- Does a subfield trigger the Detach-collision increment of lines 172-176
(`showname` truthy and not containing "Switch off")? -/
def secQualifies (sub : XmlField) : Bool :=
  truthy sub.showname && !containsSub (pyStr sub.showname) "Switch off"

/-- The subfield loop of lines 172-176: each qualifying subfield increments
COLLISION, publishes, and resets; the loop does not stop after a reset. -/
def secDetachScan (now : Int) : SecPack → List XmlField → SecPack
  | q, [] => q
  | q, sub :: rest =>
    if secQualifies sub then
      let k := q.1.kpi.COLLISION + 1
      let s1 := { q.1 with kpi := { q.1.kpi with COLLISION := k } }
      secDetachScan now
        (secReset s1,
         q.2 ++ [⟨"KPI_Retainability_SECURITY_COLLISION_FAILURE", .s (toString k), now⟩]) rest
    else secDetachScan now q rest

/-- Outgoing-EMM handling of one `field` element of
`SecurityModeControlFrAnalyzer` (lines 153-204).  The first arm catches
`show ∈ {65, 72, 255}`, so the later `elif` arms for 72 and 255 are dead. -/
def secFieldOut (p : SecPack) (now : Int) (fields : List XmlField) (f : XmlField) :
    Except PyErr SecPack :=
  let s := p.1
  if f.name == some "nas_eps.nas_msg_emm_type" then
    if f.show_ == some "65" || f.show_ == some "72" || f.show_ == some "255" then
      let (s, pubs) :=
        if s.pending_security_mode then
          match s.security_mode_timestamp with
          | none => (s, p.2)
          | some t =>
            let delta := now - t
            if 0 ≤ delta ∧ delta ≤ s.threshold then
              let k := s.kpi.COLLISION + 1
              let s := { s with kpi := { s.kpi with COLLISION := k } }
              (secReset s,
               p.2 ++ [⟨"KPI_Retainability_SECURITY_COLLISION_FAILURE", .s (toString k), now⟩])
            else (s, p.2)
        else (s, p.2)
      let s :=
        if f.show_ == some "72" && !s.pending_security_mode then
          { s with pending_TAU := true }
        else s
      .ok (s, pubs)
    else if f.show_ == some "69" then
      let (s, pubs) :=
        if s.pending_security_mode then
          match s.security_mode_timestamp with
          | none => (s, p.2)
          | some t =>
            let delta := now - t
            if 0 ≤ delta ∧ delta ≤ s.threshold then secDetachScan now (s, p.2) fields
            else (s, p.2)
        else (s, p.2)
      .ok ({ s with hoDetach := now }, pubs)
    else if f.show_ == some "70" then
      -- line 180: Detach *accept* writes the current timestamp, not the sentinel
      .ok ({ s with hoDetach := now }, p.2)
    else if f.show_ == some "74" then
      .ok ({ s with pending_TAU := false, hoTAU := datetimeMin }, p.2)
    else if f.show_ == some "81" then
      .ok ({ s with hoGUTI := datetimeMin }, p.2)
    else if f.show_ == some "83" || f.show_ == some "92" then
      .ok ({ s with hoAuthentication := datetimeMin }, p.2)
    else if f.show_ == some "86" then
      .ok ({ s with hoIdentification := datetimeMin }, p.2)
    else if f.show_ == some "94" || f.show_ == some "95" then
      .ok (secReset s, p.2)
    else .ok p
  else .ok p

/-- Maximum of `SecurityModeControlFrAnalyzer`'s handover table (line 215). -/
def secMax (s : SecState) : Int :=
  max s.hoIdentification (max s.hoSecurity (max s.hoGUTI
    (max s.hoAuthentication (max s.hoDetach s.hoTAU))))

/-- RRC handling of one `field` element of `SecurityModeControlFrAnalyzer`
(lines 211-221). -/
def secFieldRrc (p : SecPack) (now : Int) (f : XmlField) : Except PyErr SecPack :=
  let s := p.1
  if f.name == some "lte-rrc.reestablishmentCause" then
    match f.showname with
    | none => .error .typeError
    | some sn =>
      if containsSub sn "handoverFailure" then
        if s.hoSecurity = secMax s then
          let delta := now - s.hoSecurity
          if 0 ≤ delta ∧ delta ≤ 600 then
            let k := s.kpi.HANDOVER + 1
            let s := { s with kpi := { s.kpi with HANDOVER := k } }
            .ok (secReset s, p.2 ++ [⟨"KPI_Retainability_SECURITY_HANDOVER_FAILURE", .i k, now⟩])
          else .ok p
        else .ok p
      else .ok p
  else .ok p

/-- `SecurityModeControlFrAnalyzer.__emm_sr_callback` on one message. -/
def secHandleMsg (s : SecState) (m : Msg) : Except PyErr SecPack :=
  match m.typeId with
  | .emmIn  => m.fields.foldlM (fun p f => secFieldIn p m.timestamp m.fields f) (s, [])
  | .emmOut => m.fields.foldlM (fun p f => secFieldOut p m.timestamp m.fields f) (s, [])
  | .rrc    => m.fields.foldlM (fun p f => secFieldRrc p m.timestamp f) (s, [])

/-- Run the Security Mode analyzer over a trace, accumulating publications. -/
def secRun (s : SecState) : List Msg → Except PyErr SecPack
  | [] => .ok (s, [])
  | m :: ms => do
    let (s1, p1) ← secHandleMsg s m
    let (s2, p2) ← secRun s1 ms
    return (s2, p1 ++ p2)

/-! ## Detach analyzer (detach_analyzer.py) -/

/-- `kpi_measurements["failure_number"]` of `DetachAnalyzer`. -/
structure DetachKpis where
  TIMEOUT : Nat
  COLLISION : Nat
  EMM : Nat
  HANDOVER : Nat
deriving DecidableEq, Repr

/-- Mutable state of `DetachAnalyzer`. -/
structure DetachState where
  kpi : DetachKpis
  detach_req_timestamp : Option Int
  pending_detach : Bool
  timeouts : Nat
  prev_log : Option (List XmlField)
  threshold : Int
  hoIdentification : Int
  hoSecurity : Int
  hoGUTI : Int
  hoAuthentication : Int
  hoDetach : Int
  hoTAU : Int
deriving DecidableEq, Repr

/-- `DetachAnalyzer.__init__` (lines 33-44): `threshold = 60`. -/
def detachInit : DetachState :=
  { kpi := ⟨0, 0, 0, 0⟩
    detach_req_timestamp := none
    pending_detach := false
    timeouts := 0
    prev_log := none
    threshold := 60
    hoIdentification := datetimeMin
    hoSecurity := datetimeMin
    hoGUTI := datetimeMin
    hoAuthentication := datetimeMin
    hoDetach := datetimeMin
    hoTAU := datetimeMin }

/-- `DetachAnalyzer.__reset_parameters`. -/
def detachReset (s : DetachState) : DetachState :=
  { s with
      timeouts := 0, pending_detach := false, prev_log := none,
      detach_req_timestamp := none, hoDetach := datetimeMin }

abbrev DetachPack := DetachState × List KpiRec

/-- Per-iteration values of the detach-type scan in `DetachAnalyzer`'s
outgoing Attach branch (lines 149-156): `detach_type` and `cause_idx` are
re-initialised every iteration, so only the last subfield's values survive;
the `elif` cause arm runs only when `showname` is falsy. -/
def detachScanStep65 (sub : XmlField) : String × PyIS :=
  match sub.showname with
  | some sn =>
    if sn ≠ "" then
      if containsSub (lowerStr sn) "re-attach" ∨ containsSub (lowerStr sn) "imsi detach" then
        (lowerStr sn, Sum.inl (-1))
      else ("", Sum.inl (-1))
    else
      if sub.name == some "nas_eps.emm.cause" then ("", Sum.inr (pyStr sub.show_))
      else ("", Sum.inl (-1))
  | none =>
    if sub.name == some "nas_eps.emm.cause" then ("", Sum.inr (pyStr sub.show_))
    else ("", Sum.inl (-1))

/-- Per-iteration values of the detach-type scan in `DetachAnalyzer`'s
outgoing TAU branch (lines 186-193); same last-iteration-wins shape. -/
def detachScanStep72 (sub : XmlField) : String × PyIS :=
  match sub.showname with
  | some sn =>
    if sn ≠ "" then
      if containsSub (lowerStr sn) "re-attach not required" ∨
         containsSub (lowerStr sn) "imsi detach" then
        (lowerStr sn, Sum.inl (-1))
      else ("", Sum.inl (-1))
    else
      if sub.name == some "nas_eps.emm.cause" then ("", Sum.inr (pyStr sub.show_))
      else ("", Sum.inl (-1))
  | none =>
    if sub.name == some "nas_eps.emm.cause" then ("", Sum.inr (pyStr sub.show_))
    else ("", Sum.inl (-1))

/-- Incoming-EMM handling of one `field` element of `DetachAnalyzer`
(lines 90-135). -/
def detachFieldIn (p : DetachPack) (now : Int) (fields : List XmlField) (f : XmlField) :
    Except PyErr DetachPack :=
  let s := p.1
  if f.name == some "nas_eps.nas_msg_emm_type" then
    if f.show_ == some "69" then
      -- lines 94-100: one EMM increment (and reset) per cause subfield
      let (s, pubs) := fields.foldl (fun (q : DetachState × List KpiRec) sub =>
        if sub.name == some "nas_eps.emm.cause" then
          let k := q.1.kpi.EMM + 1
          let s1 := { q.1 with kpi := { q.1.kpi with EMM := k } }
          (detachReset s1,
           q.2 ++ [⟨"KPI_Retainability_DETACH_EMM_FAILURE", .s (toString k), now⟩])
        else q) (s, p.2)
      let s :=
        match s.detach_req_timestamp with
        | none => s
        | some t =>
          let delta := now - t
          if 0 ≤ delta ∧ delta ≤ s.threshold then { s with timeouts := s.timeouts + 1 }
          else { s with timeouts := 0 }
      let (s, pubs) :=
        if s.timeouts == 5 then
          let k := s.kpi.TIMEOUT + 1
          let s := { s with kpi := { s.kpi with TIMEOUT := k } }
          (detachReset s,
           pubs ++ [⟨"KPI_Retainability_DETACH_TIMEOUT_FAILURE", .s (toString k), now⟩])
        else (s, pubs)
      .ok ({ s with
               pending_detach := true, detach_req_timestamp := some now,
               prev_log := some fields, hoDetach := now }, pubs)
    else if f.show_ == some "70" then
      .ok (detachReset s, p.2)
    else if f.show_ == some "75" then
      .ok ({ s with hoTAU := datetimeMin }, p.2)
    else if f.show_ == some "80" then
      .ok ({ s with hoGUTI := now }, p.2)
    else if f.show_ == some "82" then
      .ok ({ s with hoAuthentication := now }, p.2)
    else if f.show_ == some "84" then
      .ok ({ s with hoAuthentication := datetimeMin }, p.2)
    else if f.show_ == some "85" then
      .ok ({ s with hoIdentification := now }, p.2)
    else if f.show_ == some "93" then
      .ok ({ s with hoSecurity := now }, p.2)
    else .ok p
  else .ok p

/-- Outgoing-EMM handling of one `field` element of `DetachAnalyzer`
(lines 142-214). -/
def detachFieldOut (p : DetachPack) (now : Int) (fields : List XmlField) (f : XmlField) :
    Except PyErr DetachPack :=
  let s := p.1
  if f.name == some "nas_eps.nas_msg_emm_type" then
    if f.show_ == some "65" then
      if s.pending_detach && s.detach_req_timestamp.isSome then
        match s.detach_req_timestamp with
        | none => .ok p
        | some t =>
          let delta := now - t
          if 0 ≤ delta ∧ delta ≤ s.threshold then
            match s.prev_log with
            | none => .error .attributeError
            | some L =>
              match L.getLast? with
              | none => .error .nameError  -- empty scan leaves `detach_type` unbound
              | some lastSub =>
                let (detach_type, cause_idx) := detachScanStep65 lastSub
                if (containsSub detach_type "re-attach not required" ∧
                      pyEqInt cause_idx 2 = false) ∨
                   (containsSub detach_type "imsi detach" ∧
                      pyEqInt cause_idx 2 = false) ∨
                   containsSub detach_type "re-attach required" then
                  let k := s.kpi.COLLISION + 1
                  let s := { s with kpi := { s.kpi with COLLISION := k } }
                  .ok (detachReset s,
                       p.2 ++ [⟨"KPI_Retainability_DETACH_COLLISION_FAILURE",
                                .s (toString k), now⟩])
                else .ok (s, p.2)
          else .ok (s, p.2)
      else .ok p
    else if f.show_ == some "69" then
      let s :=
        match s.detach_req_timestamp with
        | none => s
        | some t =>
          let delta := now - t
          if 0 ≤ delta ∧ delta ≤ s.threshold then { s with timeouts := s.timeouts + 1 }
          else { s with timeouts := 0 }
      let (s, pubs) :=
        if s.timeouts == 5 then
          let k := s.kpi.TIMEOUT + 1
          let s := { s with kpi := { s.kpi with TIMEOUT := k } }
          (detachReset s,
           p.2 ++ [⟨"KPI_Retainability_DETACH_TIMEOUT_FAILURE", .s (toString k), now⟩])
        else (s, p.2)
      .ok ({ s with
               pending_detach := true, detach_req_timestamp := some now,
               prev_log := some fields, hoDetach := now }, pubs)
    else if f.show_ == some "70" then
      .ok (detachReset s, p.2)
    else if f.show_ == some "72" then
      let step1 : Except PyErr DetachPack :=
        if s.pending_detach && s.detach_req_timestamp.isSome then
          match s.detach_req_timestamp with
          | none => .ok p
          | some t =>
            let delta := now - t
            if 0 ≤ delta ∧ delta ≤ s.threshold then
              match s.prev_log with
              | none => .error .attributeError
              | some L =>
                match L.getLast? with
                | none => .error .nameError
                | some lastSub =>
                  let (detach_type, cause_idx) := detachScanStep72 lastSub
                  if (containsSub detach_type "re-attach not required" ∧
                        pyEqInt cause_idx 2 = true) ∨
                     containsSub detach_type "imsi detach" then
                    let k := s.kpi.COLLISION + 1
                    let s := { s with kpi := { s.kpi with COLLISION := k } }
                    .ok (detachReset s,
                         p.2 ++ [⟨"KPI_Retainability_DETACH_COLLISION_FAILURE",
                                  .s (toString k), now⟩])
                  else .ok (s, p.2)
            else .ok (s, p.2)
        else .ok p
      match step1 with
      | .error e => .error e
      | .ok (s, pubs) => .ok ({ s with hoTAU := now }, pubs)
    else if f.show_ == some "74" then
      .ok ({ s with hoTAU := datetimeMin }, p.2)
    else if f.show_ == some "81" then
      .ok ({ s with hoGUTI := datetimeMin }, p.2)
    else if f.show_ == some "83" || f.show_ == some "92" then
      .ok ({ s with hoAuthentication := datetimeMin }, p.2)
    else if f.show_ == some "86" then
      .ok ({ s with hoIdentification := datetimeMin }, p.2)
    else if f.show_ == some "94" || f.show_ == some "95" then
      .ok ({ s with hoSecurity := datetimeMin }, p.2)
    else .ok p
  else .ok p

/-- Maximum of `DetachAnalyzer`'s handover table (line 225). -/
def detachMax (s : DetachState) : Int :=
  max s.hoIdentification (max s.hoSecurity (max s.hoGUTI
    (max s.hoAuthentication (max s.hoDetach s.hoTAU))))

/-- RRC handling of one `field` element of `DetachAnalyzer` (lines 221-231);
its handover window is `threshold` (60 s), not 600 s. -/
def detachFieldRrc (p : DetachPack) (now : Int) (f : XmlField) : Except PyErr DetachPack :=
  let s := p.1
  if f.name == some "lte-rrc.reestablishmentCause" then
    match f.showname with
    | none => .error .typeError
    | some sn =>
      if containsSub sn "handoverFailure" then
        if s.hoDetach = detachMax s then
          let delta := now - s.hoDetach
          if 0 ≤ delta ∧ delta ≤ s.threshold then
            let k := s.kpi.HANDOVER + 1
            let s := { s with kpi := { s.kpi with HANDOVER := k } }
            .ok (detachReset s, p.2 ++ [⟨"KPI_Retainability_DETACH_HANDOVER_FAILURE", .i k, now⟩])
          else .ok p
        else .ok p
      else .ok p
  else .ok p

/-- `DetachAnalyzer.__emm_sr_callback` on one message. -/
def detachHandleMsg (s : DetachState) (m : Msg) : Except PyErr DetachPack :=
  match m.typeId with
  | .emmIn  => m.fields.foldlM (fun p f => detachFieldIn p m.timestamp m.fields f) (s, [])
  | .emmOut => m.fields.foldlM (fun p f => detachFieldOut p m.timestamp m.fields f) (s, [])
  | .rrc    => m.fields.foldlM (fun p f => detachFieldRrc p m.timestamp f) (s, [])

/-- `AuthFrAnalyzer.__init__` line 41: `self.threshold = 30`. -/
def authThreshold : Int := 30

/-- `GutiReallocationFrAnalyzer.__init__` line 40: `self.threshold = 30`. -/
def gutiThreshold : Int := 30

/-- `GutiReallocationFrAnalyzer.__init__` line 39: `self.T3450 = 6`. -/
def gutiT3450 : Int := 6

/-! ## Authentication analyzer (auth_fr_analyzer.py) -/

/-- `kpi_measurements["failure_number"]` of `AuthFrAnalyzer`. -/
structure AuthKpis where
  TIMEOUT : Nat
  MAC : Nat
  SYNCH : Nat
  NON_EPS : Nat
  EMM : Nat
  TRANSMISSION_TAU : Nat
  TRANSMISSION_SERVICE : Nat
  HANDOVER : Nat
deriving DecidableEq, Repr

/-- Mutable state of `AuthFrAnalyzer`. -/
structure AuthState where
  kpi : AuthKpis
  auth_timestamp : Option Int
  pending_auth : Bool
  pending_TAU : Bool
  pending_service : Bool
  timeouts : Nat
  prev_log : Option (List XmlField)
  threshold : Int
  hoIdentification : Int
  hoSecurity : Int
  hoGUTI : Int
  hoAuthentication : Int
  hoDetach : Int
  hoTAU : Int
deriving DecidableEq, Repr

/-- `AuthFrAnalyzer.__init__` (lines 34-46): `threshold = 30`. -/
def authInit : AuthState :=
  { kpi := ⟨0, 0, 0, 0, 0, 0, 0, 0⟩
    auth_timestamp := none
    pending_auth := false
    pending_TAU := false
    pending_service := false
    timeouts := 0
    prev_log := none
    threshold := 30
    hoIdentification := datetimeMin
    hoSecurity := datetimeMin
    hoGUTI := datetimeMin
    hoAuthentication := datetimeMin
    hoDetach := datetimeMin
    hoTAU := datetimeMin }

/-- `AuthFrAnalyzer.__reset_parameters`. -/
def authReset (s : AuthState) : AuthState :=
  { s with
      pending_auth := false, pending_service := false, pending_TAU := false,
      prev_log := none, timeouts := 0, auth_timestamp := none,
      hoAuthentication := datetimeMin }

abbrev AuthPack := AuthState × List KpiRec

/-- Incoming-EMM handling of one `field` element of `AuthFrAnalyzer`
(lines 94-154). -/
def authFieldIn (p : AuthPack) (now : Int) (fields : List XmlField) (f : XmlField) :
    Except PyErr AuthPack :=
  let s := p.1
  if f.name == some "nas_eps.nas_msg_emm_type" then
    if f.show_ == some "69" then
      .ok ({ s with hoDetach := now }, p.2)
    else if f.show_ == some "70" then
      .ok ({ s with hoDetach := datetimeMin }, p.2)
    else if f.show_ == some "75" then
      -- lines 103-105: TAU reject clears the *Detach* entry, not the TAU entry
      .ok ({ s with pending_TAU := false, hoDetach := datetimeMin }, p.2)
    else if f.show_ == some "78" then
      .ok ({ s with pending_service := false }, p.2)
    else if f.show_ == some "79" then
      .ok ({ s with pending_service := false }, p.2)
    else if f.show_ == some "80" then
      .ok ({ s with hoGUTI := now }, p.2)
    else if f.show_ == some "82" then
      let step1 : Except PyErr AuthPack :=
        if s.pending_auth && s.pending_service then
          match s.auth_timestamp with
          | none => .error .nameError  -- `delta` unbound at the window test
          | some t =>
            let delta := now - t
            if 0 ≤ delta ∧ delta ≤ s.threshold then
              let k := s.kpi.TRANSMISSION_SERVICE + 1
              let s := { s with kpi := { s.kpi with TRANSMISSION_SERVICE := k } }
              .ok (authReset s, p.2 ++ [⟨"KPI_Retainability_AUTH_TRANSMISSION_SERVICE_FAILURE", .s (toString k), now⟩])
            else .ok (s, p.2)
        else if s.pending_auth && s.pending_TAU then
          match s.auth_timestamp with
          | none => .error .nameError
          | some t =>
            let delta := now - t
            if 0 ≤ delta ∧ delta ≤ s.threshold then
              let k := s.kpi.TRANSMISSION_TAU + 1
              let s := { s with kpi := { s.kpi with TRANSMISSION_TAU := k } }
              .ok (authReset s, p.2 ++ [⟨"KPI_Retainability_AUTH_TRANSMISSION_TAU_FAILURE", .s (toString k), now⟩])
            else .ok (s, p.2)
        else if s.pending_auth then
          match s.auth_timestamp with
          | none => .error .nameError
          | some t =>
            let delta := now - t
            if 0 ≤ delta ∧ delta ≤ s.threshold then
              .ok ({ s with timeouts := s.timeouts + 1 }, p.2)
            else .ok ({ s with timeouts := 0 }, p.2)
        else .ok (s, p.2)
      match step1 with
      | .error e => .error e
      | .ok (s, pubs) =>
        let (s, pubs) :=
          if s.timeouts == 5 then
            let k := s.kpi.TIMEOUT + 1
            let s := { s with kpi := { s.kpi with TIMEOUT := k } }
            (authReset s, pubs ++ [⟨"KPI_Retainability_AUTH_TIMEOUT_FAILURE", .s (toString k), now⟩])
          else (s, pubs)
        .ok ({ s with
                 auth_timestamp := some now, pending_auth := true,
                 prev_log := some fields, hoAuthentication := now }, pubs)
    else if f.show_ == some "84" then
      .ok (authReset s, p.2)
    else if f.show_ == some "85" then
      .ok ({ s with hoIdentification := now }, p.2)
    else if f.show_ == some "93" then
      .ok ({ s with hoSecurity := now }, p.2)
    else .ok p
  else .ok p

/-- Outgoing-EMM handling of one `field` element of `AuthFrAnalyzer`
(lines 162-212). -/
def authFieldOut (p : AuthPack) (now : Int) (fields : List XmlField) (f : XmlField) :
    Except PyErr AuthPack :=
  let s := p.1
  if f.name == some "nas_eps.nas_msg_emm_type" then
    if f.show_ == some "69" then
      .ok ({ s with hoDetach := now }, p.2)
    else if f.show_ == some "70" then
      .ok ({ s with hoDetach := datetimeMin }, p.2)
    else if f.show_ == some "72" then
      let s := if !s.pending_auth then { s with pending_TAU := true } else s
      .ok ({ s with hoTAU := now }, p.2)
    else if f.show_ == some "74" then
      .ok ({ s with pending_TAU := false, hoTAU := datetimeMin }, p.2)
    else if f.show_ == some "81" then
      .ok ({ s with hoGUTI := datetimeMin }, p.2)
    else if f.show_ == some "83" then
      .ok (authReset s, p.2)
    else if f.show_ == some "86" then
      .ok ({ s with hoIdentification := datetimeMin }, p.2)
    else if f.show_ == some "92" then
      -- lines 190-206: one failure-cause classification per cause subfield
      let (s, pubs) := fields.foldl (fun (q : AuthState × List KpiRec) child =>
        if child.name == some "nas_eps.emm.cause" then
          let cause_idx := pyStr child.show_
          if cause_idx == "20" then
            let k := q.1.kpi.MAC + 1
            ({ q.1 with kpi := { q.1.kpi with MAC := k } },
             q.2 ++ [⟨"KPI_Retainability_AUTH_MAC_FAILURE", .s (toString k), now⟩])
          else if cause_idx == "21" then
            let k := q.1.kpi.SYNCH + 1
            ({ q.1 with kpi := { q.1.kpi with SYNCH := k } },
             q.2 ++ [⟨"KPI_Retainability_AUTH_SYNCH_FAILURE", .s (toString k), now⟩])
          else if cause_idx == "26" then
            let k := q.1.kpi.NON_EPS + 1
            ({ q.1 with kpi := { q.1.kpi with NON_EPS := k } },
             q.2 ++ [⟨"KPI_Retainability_AUTH_NON_EPS_FAILURE", .s (toString k), now⟩])
          else
            let k := q.1.kpi.EMM + 1
            ({ q.1 with kpi := { q.1.kpi with EMM := k } },
             q.2 ++ [⟨"KPI_Retainability_AUTH_EMM_FAILURE", .s (toString k), now⟩])
        else q) (s, p.2)
      .ok (authReset s, pubs)
    else if f.show_ == some "94" || f.show_ == some "95" then
      .ok ({ s with hoSecurity := datetimeMin }, p.2)
    else if f.show_ == some "255" then
      if !s.pending_auth then .ok ({ s with pending_service := true }, p.2)
      else .ok p
    else .ok p
  else .ok p

/-- Maximum of `AuthFrAnalyzer`'s handover table (line 223). -/
def authMax (s : AuthState) : Int :=
  max s.hoIdentification (max s.hoSecurity (max s.hoGUTI
    (max s.hoAuthentication (max s.hoDetach s.hoTAU))))

/-- RRC handling of one `field` element of `AuthFrAnalyzer` (lines 219-229). -/
def authFieldRrc (p : AuthPack) (now : Int) (f : XmlField) : Except PyErr AuthPack :=
  let s := p.1
  if f.name == some "lte-rrc.reestablishmentCause" then
    match f.showname with
    | none => .error .typeError
    | some sn =>
      if containsSub sn "handoverFailure" then
        if s.hoAuthentication = authMax s then
          let delta := now - s.hoAuthentication
          if 0 ≤ delta ∧ delta ≤ 600 then
            let k := s.kpi.HANDOVER + 1
            let s := { s with kpi := { s.kpi with HANDOVER := k } }
            .ok (authReset s, p.2 ++ [⟨"KPI_Retainability_AUTH_HANDOVER_FAILURE", .i k, now⟩])
          else .ok p
        else .ok p
      else .ok p
  else .ok p

/-- `AuthFrAnalyzer.__emm_sr_callback` on one message. -/
def authHandleMsg (s : AuthState) (m : Msg) : Except PyErr AuthPack :=
  match m.typeId with
  | .emmIn  => m.fields.foldlM (fun p f => authFieldIn p m.timestamp m.fields f) (s, [])
  | .emmOut => m.fields.foldlM (fun p f => authFieldOut p m.timestamp m.fields f) (s, [])
  | .rrc    => m.fields.foldlM (fun p f => authFieldRrc p m.timestamp f) (s, [])

/-! ## GUTI reallocation analyzer (guti_reallocation_fr_analyzer.py) -/

/-- `kpi_measurements["failure_number"]` of `GutiReallocationFrAnalyzer`. -/
structure GutiKpis where
  TIMEOUT : Nat
  COLLISION : Nat
  HANDOVER : Nat
deriving DecidableEq, Repr

/-- Mutable state of `GutiReallocationFrAnalyzer`. -/
structure GutiState where
  kpi : GutiKpis
  guti_timestamp : Option Int
  pending_guti : Bool
  timeouts : Nat
  prev_log : Option (List XmlField)
  T3450 : Int
  threshold : Int
  hoIdentification : Int
  hoSecurity : Int
  hoGUTI : Int
  hoAuthentication : Int
  hoDetach : Int
  hoTAU : Int
deriving DecidableEq, Repr

/-- `GutiReallocationFrAnalyzer.__init__` (lines 35-44): `T3450 = 6`,
`threshold = 30`. -/
def gutiInit : GutiState :=
  { kpi := ⟨0, 0, 0⟩
    guti_timestamp := none
    pending_guti := false
    timeouts := 0
    prev_log := none
    T3450 := 6
    threshold := 30
    hoIdentification := datetimeMin
    hoSecurity := datetimeMin
    hoGUTI := datetimeMin
    hoAuthentication := datetimeMin
    hoDetach := datetimeMin
    hoTAU := datetimeMin }

/-- `GutiReallocationFrAnalyzer.__reset_parameters`. -/
def gutiReset (s : GutiState) : GutiState :=
  { s with
      pending_guti := false, prev_log := none, timeouts := 0,
      guti_timestamp := none, hoGUTI := datetimeMin }

abbrev GutiPack := GutiState × List KpiRec

/-- Incoming-EMM handling of one `field` element of
`GutiReallocationFrAnalyzer` (lines 82-121). -/
def gutiFieldIn (p : GutiPack) (now : Int) (fields : List XmlField) (f : XmlField) :
    Except PyErr GutiPack :=
  let s := p.1
  if f.name == some "nas_eps.nas_msg_emm_type" then
    if f.show_ == some "69" then
      .ok ({ s with hoDetach := now }, p.2)
    else if f.show_ == some "70" then
      .ok ({ s with hoDetach := datetimeMin }, p.2)
    else if f.show_ == some "75" then
      .ok ({ s with hoTAU := datetimeMin }, p.2)
    else if f.show_ == some "80" then
      let mstep : Except PyErr GutiState :=
        if s.pending_guti then
          match s.guti_timestamp with
          | none => .error .typeError  -- line 97: unguarded subtraction from None
          | some t =>
            let delta := now - t
            if 0 ≤ delta ∧ delta ≤ s.T3450 then .ok { s with timeouts := s.timeouts + 1 }
            else .ok { s with timeouts := 0 }
        else .ok s
      match mstep with
      | .error e => .error e
      | .ok s =>
        let (s, pubs) :=
          if s.timeouts == 5 then
            let k := s.kpi.TIMEOUT + 1
            let s := { s with kpi := { s.kpi with TIMEOUT := k } }
            (gutiReset s,
             p.2 ++ [⟨"KPI_Retainability_GUTI_TIMEOUT_FAILURE", .s (toString k), now⟩])
          else (s, p.2)
        .ok ({ s with
                 guti_timestamp := some now, pending_guti := true,
                 prev_log := some fields, hoGUTI := now }, pubs)
    else if f.show_ == some "82" then
      .ok ({ s with hoAuthentication := now }, p.2)
    else if f.show_ == some "84" then
      .ok ({ s with hoAuthentication := datetimeMin }, p.2)
    else if f.show_ == some "85" then
      .ok ({ s with hoIdentification := now }, p.2)
    else if f.show_ == some "93" then
      .ok ({ s with hoSecurity := now }, p.2)
    else .ok p
  else .ok p

/-- Outgoing-EMM handling of one `field` element of
`GutiReallocationFrAnalyzer` (lines 128-160). -/
def gutiFieldOut (p : GutiPack) (now : Int) (fields : List XmlField) (f : XmlField) :
    Except PyErr GutiPack :=
  let s := p.1
  if f.name == some "nas_eps.nas_msg_emm_type" then
    if f.show_ == some "65" || f.show_ == some "69" || f.show_ == some "72" ||
       f.show_ == some "255" then
      let (s, pubs) :=
        if s.pending_guti then
          match s.guti_timestamp with
          | none => (s, p.2)  -- line 133: falsy timestamp skips the window test
          | some t =>
            let delta := now - t
            if 0 ≤ delta ∧ delta ≤ s.threshold then
              let k := s.kpi.COLLISION + 1
              let s := { s with kpi := { s.kpi with COLLISION := k } }
              (gutiReset s,
               p.2 ++ [⟨"KPI_Retainability_GUTI_COLLISION_FAILURE", .s (toString k), now⟩])
            else (s, p.2)
        else (s, p.2)
      let s :=
        if f.show_ == some "69" then { s with hoDetach := now }
        else if f.show_ == some "72" then { s with hoTAU := now }
        else s
      .ok (s, pubs)
    else if f.show_ == some "70" then
      .ok ({ s with hoDetach := datetimeMin }, p.2)
    else if f.show_ == some "74" then
      .ok ({ s with hoTAU := datetimeMin }, p.2)
    else if f.show_ == some "81" then
      .ok (gutiReset s, p.2)
    else if f.show_ == some "83" || f.show_ == some "92" then
      .ok ({ s with hoAuthentication := datetimeMin }, p.2)
    else if f.show_ == some "86" then
      .ok ({ s with hoIdentification := datetimeMin }, p.2)
    else if f.show_ == some "94" || f.show_ == some "95" then
      .ok ({ s with hoSecurity := datetimeMin }, p.2)
    else .ok p
  else .ok p

/-- Maximum of `GutiReallocationFrAnalyzer`'s handover table (line 171). -/
def gutiMax (s : GutiState) : Int :=
  max s.hoIdentification (max s.hoSecurity (max s.hoGUTI
    (max s.hoAuthentication (max s.hoDetach s.hoTAU))))

/-- RRC handling of one `field` element of `GutiReallocationFrAnalyzer`
(lines 167-177). -/
def gutiFieldRrc (p : GutiPack) (now : Int) (f : XmlField) : Except PyErr GutiPack :=
  let s := p.1
  if f.name == some "lte-rrc.reestablishmentCause" then
    match f.showname with
    | none => .error .typeError
    | some sn =>
      if containsSub sn "handoverFailure" then
        if s.hoGUTI = gutiMax s then
          let delta := now - s.hoGUTI
          if 0 ≤ delta ∧ delta ≤ 600 then
            let k := s.kpi.HANDOVER + 1
            let s := { s with kpi := { s.kpi with HANDOVER := k } }
            .ok (gutiReset s, p.2 ++ [⟨"KPI_Retainability_GUTI_HANDOVER_FAILURE", .i k, now⟩])
          else .ok p
        else .ok p
      else .ok p
  else .ok p

/-- `GutiReallocationFrAnalyzer.__emm_sr_callback` on one message. -/
def gutiHandleMsg (s : GutiState) (m : Msg) : Except PyErr GutiPack :=
  match m.typeId with
  | .emmIn  => m.fields.foldlM (fun p f => gutiFieldIn p m.timestamp m.fields f) (s, [])
  | .emmOut => m.fields.foldlM (fun p f => gutiFieldOut p m.timestamp m.fields f) (s, [])
  | .rrc    => m.fields.foldlM (fun p f => gutiFieldRrc p m.timestamp f) (s, [])

deriving instance DecidableEq for Except

/-! ## Claim theorems -/

/-- Trace of five incoming Identification Requests at t = 0..4 (claim C1's input). -/
def idFiveTrace : List Msg :=
  [emmInMsg "85" 0, emmInMsg "85" 1, emmInMsg "85" 2, emmInMsg "85" 3, emmInMsg "85" 4]

/-- Trace of six incoming Identification Requests at t = 0..5. -/
def idSixTrace : List Msg := idFiveTrace ++ [emmInMsg "85" 5]

/-- C1 counterexample: after five incoming Identification Requests at
t = 0,1,2,3,4 with no response, the strike counter is only 4 (the first
request arms the procedure and does not count as a strike), no
KPI_Retainability_IDENTIFY_TIMEOUT_FAILURE is published, and the shared-table
entry for Identification still holds the last request's timestamp rather
than the sentinel. -/
theorem idC1_counterexample :
    idRun idInit idFiveTrace =
      .ok ({ idInit with
               pending_id := true, identify_req_timestamp := some 4,
               timeouts := 4, hoIdentification := 4 }, []) ∧
    (4 : Int) ≠ datetimeMin := by
  constructor
  · rfl
  · decide

/-- C1 (amended): with six incoming Identification Requests at t = 0..5 the
strike counter reaches 5 at the sixth, the analyzer publishes
KPI_Retainability_IDENTIFY_TIMEOUT_FAILURE with running total 1 and resets
its state, but the same sixth request immediately re-arms the procedure:
pending_id is set again and the shared-table entry holds the sixth
request's timestamp (5), not the sentinel. -/
theorem idC1_amended :
    idRun idInit idSixTrace =
      .ok ({ idInit with
               kpi := ⟨0, 0, 0, 1, 0, 0, 0⟩, pending_id := true,
               identify_req_timestamp := some 5, hoIdentification := 5 },
           [⟨"KPI_Retainability_IDENTIFY_TIMEOUT_FAILURE", .s "1", 5⟩]) := by
  rfl

/-- C2 counterexample: the Identification analyzer's correlation threshold is
30 seconds, not 60. -/
theorem thresholdsC2_counterexample :
    idInit.threshold = 30 ∧ idInit.threshold ≠ 60 := by decide

/-- C2 (amended): the inter-message correlation threshold is 30 seconds in
the Identification, Attach, TAU, Security Mode, Authentication and GUTI
analyzers, and 60 seconds only in the Detach analyzer. -/
theorem thresholdsC2_amended :
    idInit.threshold = 30 ∧ attachInit.threshold = 30 ∧ tauInit.threshold = 30 ∧
    secInit.threshold = 30 ∧ authThreshold = 30 ∧ gutiThreshold = 30 ∧
    detachInit.threshold = 60 := by decide

/-- C3: on an incoming Detach Request that triggers the DETACH failure while
an Attach (resp. TAU) request is pending, the code increments the DETACH
counter to 1 but publishes the CONCURRENT counter's value "0" under
KPI_Retainability_ATTACH_DETACH_FAILURE (resp. TAU), contradicting the
required publication of the incremented counter's own running total. -/
theorem publishC3_bug :
    (attachHandleMsg
        { attachInit with pending_attach := true, attach_req_timestamp := some 0 }
        ⟨.emmIn, 1, [⟨some "nas_eps.nas_msg_emm_type", none, none, some "69"⟩,
                     ⟨none, none, some "Detach Type: Re-attach required", none⟩]⟩ =
      .ok ({ attachInit with kpi := ⟨0, 0, 1, 0, 0⟩ },
           [⟨"KPI_Retainability_ATTACH_DETACH_FAILURE", .s "0", 1⟩])) ∧
    (tauHandleMsg
        { tauInit with pending_TAU := true, TAU_req_timestamp := some 0 }
        ⟨.emmIn, 1, [⟨some "nas_eps.nas_msg_emm_type", some "69", none, none⟩,
                     ⟨none, none, some "Detach Type: Re-attach required", none⟩]⟩ =
      .ok ({ tauInit with kpi := ⟨0, 0, 0, 1, 0, 0⟩, hoDetach := 1 },
           [⟨"KPI_Retainability_TAU_DETACH_FAILURE", .s "0", 1⟩])) ∧
    KpiVal.s "0" ≠ KpiVal.s (toString (1 : Nat)) := by
  refine ⟨by rfl, by rfl, by decide⟩

/-- A field whose `name` is not the EMM-type discriminator is ignored by
`attachFieldOut`. -/
theorem attachFieldOut_noop (p : AttachPack) (now : Int) (fields : List XmlField)
    (f : XmlField) (h : f.name ≠ some "nas_eps.nas_msg_emm_type") :
    attachFieldOut p now fields f = .ok p := by
  simp only [attachFieldOut]
  rw [if_neg]
  simp [h]

/-- Folding `attachFieldOut` over fields with other names changes nothing. -/
theorem attachFoldOut_noop (now : Int) (fields : List XmlField) :
    ∀ (rest : List XmlField) (p : AttachPack),
      (∀ g ∈ rest, g.name ≠ some "nas_eps.nas_msg_emm_type") →
      List.foldlM (fun q g => attachFieldOut q now fields g) p rest = .ok p := by
  intro rest
  induction rest with
  | nil => intro p _; rfl
  | cons g gs ih =>
    intro p h
    rw [List.foldlM_cons, attachFieldOut_noop p now fields g (h g (by simp))]
    exact ih p (fun x hx => h x (by simp [hx]))

/-- When the remaining fields of an outgoing message carry other names, the
whole callback reduces to the handling of the first field. -/
theorem attachHandleMsgCons (s : AttachState) (now : Int) (f : XmlField)
    (rest : List XmlField) (h : ∀ g ∈ rest, g.name ≠ some "nas_eps.nas_msg_emm_type") :
    attachHandleMsg s ⟨.emmOut, now, f :: rest⟩ = attachFieldOut (s, []) now (f :: rest) f := by
  simp only [attachHandleMsg, List.foldlM_cons]
  cases hstep : attachFieldOut (s, []) now (f :: rest) f with
  | error e => rfl
  | ok X => exact attachFoldOut_noop now (f :: rest) rest X h

/-- Prior Attach Request payload for the C4 counterexample: differs from
`c4NewFields` only in the `showname` of `gsm_a.L3_protocol_discriminator`,
one of the seven fields the claim says the Attach analyzer compares. -/
def c4PrevFields : List XmlField :=
  [⟨some "gsm_a.L3_protocol_discriminator", none, some "Protocol discriminator: A", none⟩,
   ⟨some "nas_eps.nas_msg_emm_type", some "65", none, none⟩]

/-- Second Attach Request payload for the C4 counterexample. -/
def c4NewFields : List XmlField :=
  [⟨some "gsm_a.L3_protocol_discriminator", none, some "Protocol discriminator: B", none⟩,
   ⟨some "nas_eps.nas_msg_emm_type", some "65", none, none⟩]

/-- C4 counterexample: the two requests differ exactly in one of the seven
fields the claim names (so the claim demands ATTACH_CONCURRENT_FAILURE), yet
the Attach analyzer — whose fingerprint selects a different field set —
computes equal fingerprints and emits nothing. -/
theorem attachIEC4_counterexample :
    idAttachIE c4PrevFields ≠ idAttachIE c4NewFields ∧
    attachFrIE c4PrevFields = attachFrIE c4NewFields ∧
    attachHandleMsg
        { attachInit with
            pending_attach := true, attach_req_timestamp := some 0,
            prev_log := some c4PrevFields }
        ⟨.emmOut, 5, c4NewFields⟩ =
      .ok ({ attachInit with
               pending_attach := true, attach_req_timestamp := some 5,
               prev_log := some c4NewFields, timeouts := 1 }, []) := by
  refine ⟨by decide, by decide, by rfl⟩

/-- C4 (amended): on a second outgoing Attach Request within the window while
an attach is pending, the Attach analyzer fingerprints the stored and the new
request with the key set `nas_eps.emm.eps_att_type`, `nas_eps.emm.esm_msg_cont`,
`nas_eps.emm.type_of_id`, `gsm_a.gm.gmm.ue_usage_setting` plus the
`show`-named subtrees "EPS mobile identity", "UE network capability" and
"DRX parameter" (the seven-name set of the claim is used by the
Identification analyzer instead), and ATTACH_CONCURRENT_FAILURE is emitted
exactly when the two fingerprints differ. -/
theorem attachIEC4_amended
    (s : AttachState) (now t : Int) (L rest : List XmlField) (f : XmlField)
    (hp : s.pending_attach = true) (hts : s.attach_req_timestamp = some t)
    (hw1 : 0 ≤ now - t) (hw2 : now - t ≤ s.threshold) (hprev : s.prev_log = some L)
    (hname : f.name = some "nas_eps.nas_msg_emm_type") (hshow : f.show_ = some "65")
    (hrest : ∀ g ∈ rest, g.name ≠ some "nas_eps.nas_msg_emm_type") :
    ∃ s' pubs, attachHandleMsg s ⟨.emmOut, now, f :: rest⟩ = .ok (s', pubs) ∧
      (s'.kpi.CONCURRENT = s.kpi.CONCURRENT + 1 ↔ attachFrIE L ≠ attachFrIE (f :: rest)) := by
  rw [attachHandleMsgCons s now f rest hrest]
  simp only [attachFieldOut, hname, hshow, hp, hts, hprev]
  by_cases hfp : attachFrIE L = attachFrIE (f :: rest)
  · by_cases hto : s.timeouts = 4
    · simp [hfp, hw1, hw2, hts, hto]
    · simp [hfp, hw1, hw2, hts, hto]
  · simp [hfp, hw1, hw2, hts]

theorem attachC5auxIn (s : AttachState) (now : Int) (f : XmlField)
    (s' : AttachState) (pubs : List KpiRec)
    (hnb : ¬(s.pending_attach = true ∧ s.accepting_attach = true))
    (hok : attachHandleMsg s ⟨.emmIn, now, [f]⟩ = .ok (s', pubs)) :
    ¬(s'.pending_attach = true ∧ s'.accepting_attach = true) := by
  simp only [attachHandleMsg, List.foldlM_cons, List.foldlM_nil] at hok
  obtain ⟨k, art, aat, pa, aa, pl, to_, th⟩ := s
  simp only [attachFieldIn] at hok
  generalize hg : attachScan69 [f] = scanRes at hok
  cases art <;> cases aat <;> cases scanRes
  all_goals try split_ifs at hok
  all_goals try simp only [Except.ok.injEq, Prod.mk.injEq] at hok
  all_goals try split_ifs at hok
  all_goals try simp only [Except.ok.injEq, Prod.mk.injEq] at hok
  all_goals try rcases hok with ⟨rfl, rfl⟩
  all_goals simp_all

theorem attachC5auxOut (s : AttachState) (now : Int) (f : XmlField)
    (s' : AttachState) (pubs : List KpiRec)
    (hnb : ¬(s.pending_attach = true ∧ s.accepting_attach = true))
    (hok : attachHandleMsg s ⟨.emmOut, now, [f]⟩ = .ok (s', pubs))
    (hboth : s'.pending_attach = true ∧ s'.accepting_attach = true) :
    f.show_ = some "65" ∧ s.accepting_attach = true := by
  simp only [attachHandleMsg, List.foldlM_cons, List.foldlM_nil] at hok
  obtain ⟨k, art, aat, pa, aa, pl, to_, th⟩ := s
  simp only [attachFieldOut] at hok
  cases art <;> cases aat <;> cases pl
  all_goals try split_ifs at hok
  all_goals try simp only [Except.ok.injEq, Prod.mk.injEq] at hok
  all_goals try split_ifs at hok
  all_goals try simp only [Except.ok.injEq, Prod.mk.injEq] at hok
  all_goals try rcases hok with ⟨rfl, rfl⟩
  all_goals try split_ifs at hboth
  all_goals simp_all

set_option maxHeartbeats 4000000 in
theorem tauC5auxIn (s : TauState) (now : Int) (f : XmlField)
    (s' : TauState) (pubs : List KpiRec)
    (hnb : ¬(s.pending_TAU = true ∧ s.accepting_TAU = true))
    (hok : tauHandleMsg s ⟨.emmIn, now, [f]⟩ = .ok (s', pubs)) :
    ¬(s'.pending_TAU = true ∧ s'.accepting_TAU = true) := by
  simp only [tauHandleMsg, List.foldlM_cons, List.foldlM_nil] at hok
  have hl : ([f] : List XmlField).getLast? = some f := rfl
  by_cases hn : f.name = some "nas_eps.nas_msg_emm_type"
  case neg => simp [tauFieldIn, hn] at hok; simp [← hok.1, hnb]
  by_cases h69 : f.show_ = some "69"
  case pos =>
    simp only [tauFieldIn, hl, hn, h69, List.foldl_cons, List.foldl_nil] at hok
    generalize hg : tauScanStep f = st at hok
    obtain ⟨dt, ci⟩ := st
    simp at hok
    (try split_ifs at hok) <;> (try rcases hok with ⟨rfl, rfl⟩) <;> simp_all [tauReset]
  by_cases h70 : f.show_ = some "70"
  case pos => simp [tauFieldIn, hn, h69, h70] at hok; simp [← hok.1, hnb]
  by_cases h73 : f.show_ = some "73"
  case pos =>
    simp only [tauFieldIn, hn, h69, h70, h73] at hok
    simp at hok
    (try split_ifs at hok) <;> (try rcases hok with ⟨rfl, rfl⟩) <;> simp_all [tauReset]
  by_cases h75 : f.show_ = some "75"
  case pos =>
    simp only [tauFieldIn, hn, h69, h70, h73, h75, List.foldl_cons, List.foldl_nil] at hok
    simp at hok
    (try split_ifs at hok) <;> (try rcases hok with ⟨rfl, rfl⟩) <;> simp_all [tauReset]
  by_cases h80 : f.show_ = some "80"
  case pos => simp [tauFieldIn, hn, h69, h70, h73, h75, h80] at hok; simp [← hok.1, hnb]
  by_cases h82 : f.show_ = some "82"
  case pos => simp [tauFieldIn, hn, h69, h70, h73, h75, h80, h82] at hok; simp [← hok.1, hnb]
  by_cases h84 : f.show_ = some "84"
  case pos => simp [tauFieldIn, hn, h69, h70, h73, h75, h80, h82, h84] at hok; simp [← hok.1, hnb]
  by_cases h85 : f.show_ = some "85"
  case pos => simp [tauFieldIn, hn, h69, h70, h73, h75, h80, h82, h84, h85] at hok; simp [← hok.1, hnb]
  by_cases h93 : f.show_ = some "93"
  case pos => simp [tauFieldIn, hn, h69, h70, h73, h75, h80, h82, h84, h85, h93] at hok; simp [← hok.1, hnb]
  simp [tauFieldIn, hn, h69, h70, h73, h75, h80, h82, h84, h85, h93] at hok
  simp [← hok.1, hnb]

set_option maxHeartbeats 8000000 in
theorem tauC5auxOut (s : TauState) (now : Int) (f : XmlField)
    (s' : TauState) (pubs : List KpiRec)
    (hnb : ¬(s.pending_TAU = true ∧ s.accepting_TAU = true))
    (hok : tauHandleMsg s ⟨.emmOut, now, [f]⟩ = .ok (s', pubs))
    (hboth : s'.pending_TAU = true ∧ s'.accepting_TAU = true) :
    f.show_ = some "72" ∧ s.accepting_TAU = true := by
  simp only [tauHandleMsg, List.foldlM_cons, List.foldlM_nil] at hok
  obtain ⟨k, rt, at_, pt, ac, to_, pl, th, g1, g2, g3, g4, g5, g6⟩ := s
  by_cases hn : f.name = some "nas_eps.nas_msg_emm_type"
  case neg =>
    simp [tauFieldOut, hn] at hok
    obtain ⟨hs, -⟩ := hok; subst hs; simp_all
  by_cases h69 : f.show_ = some "69"
  case pos =>
    simp only [tauFieldOut, hn, h69, List.foldl_cons, List.foldl_nil] at hok
    simp at hok
    (try split_ifs at hok) <;> (try rcases hok with ⟨rfl, rfl⟩) <;>
      (try split_ifs at hboth) <;> simp_all [tauReset, apply_ite]
  by_cases h70 : f.show_ = some "70"
  case pos =>
    simp [tauFieldOut, hn, h69, h70] at hok
    obtain ⟨hs, -⟩ := hok; subst hs; simp_all
  by_cases h72 : f.show_ = some "72"
  case pos =>
    simp only [tauFieldOut, hn, h69, h70, h72] at hok
    cases pt <;> cases ac <;> cases rt <;> cases at_ <;> cases pl <;> simp at hok <;>
      (try split_ifs at hok) <;> (try rcases hok with ⟨rfl, rfl⟩) <;>
      (try split_ifs at hboth) <;> simp_all [tauReset, apply_ite]
  by_cases h74 : f.show_ = some "74"
  case pos =>
    simp only [tauFieldOut, hn, h69, h70, h72, h74] at hok
    cases at_ <;> simp at hok <;>
      (try split_ifs at hok) <;> (try rcases hok with ⟨rfl, rfl⟩) <;>
      (try split_ifs at hboth) <;> simp_all [tauReset, apply_ite]
  by_cases h81 : f.show_ = some "81"
  case pos =>
    simp [tauFieldOut, hn, h69, h70, h72, h74, h81] at hok
    obtain ⟨hs, -⟩ := hok; subst hs; simp_all
  by_cases h83 : f.show_ = some "83"
  case pos =>
    simp [tauFieldOut, hn, h69, h70, h72, h74, h81, h83] at hok
    obtain ⟨hs, -⟩ := hok; subst hs; simp_all
  by_cases h92 : f.show_ = some "92"
  case pos =>
    simp [tauFieldOut, hn, h69, h70, h72, h74, h81, h83, h92] at hok
    obtain ⟨hs, -⟩ := hok; subst hs; simp_all
  by_cases h86 : f.show_ = some "86"
  case pos =>
    simp [tauFieldOut, hn, h69, h70, h72, h74, h81, h83, h92, h86] at hok
    obtain ⟨hs, -⟩ := hok; subst hs; simp_all
  by_cases h94 : f.show_ = some "94"
  case pos =>
    simp [tauFieldOut, hn, h69, h70, h72, h74, h81, h83, h92, h86, h94] at hok
    obtain ⟨hs, -⟩ := hok; subst hs; simp_all
  by_cases h95 : f.show_ = some "95"
  case pos =>
    simp [tauFieldOut, hn, h69, h70, h72, h74, h81, h83, h92, h86, h94, h95] at hok
    obtain ⟨hs, -⟩ := hok; subst hs; simp_all
  simp [tauFieldOut, hn, h69, h70, h72, h74, h81, h83, h92, h86, h94, h95] at hok
  obtain ⟨hs, -⟩ := hok; subst hs; simp_all

theorem tauC5auxRrc (s : TauState) (now : Int) (f : XmlField)
    (s' : TauState) (pubs : List KpiRec)
    (hnb : ¬(s.pending_TAU = true ∧ s.accepting_TAU = true))
    (hok : tauHandleMsg s ⟨.rrc, now, [f]⟩ = .ok (s', pubs)) :
    ¬(s'.pending_TAU = true ∧ s'.accepting_TAU = true) := by
  obtain ⟨nm, sh, sn, vl⟩ := f
  simp only [tauHandleMsg, List.foldlM_cons, List.foldlM_nil, tauFieldRrc] at hok
  cases sn <;> simp at hok <;> (try split_ifs at hok) <;>
    (try rcases hok with ⟨rfl, rfl⟩) <;> simp_all [tauReset]

/-- State of the Attach analyzer after an Attach Request at t=0 and an
Attach Accept at t=1. -/
def c5MidState : AttachState :=
  { attachInit with
      attach_accept_timestamp := some 1, accepting_attach := true,
      prev_log := some [⟨some "nas_eps.nas_msg_emm_type", some "66", none, none⟩] }

/-- State of the Attach analyzer after additionally handling a second
outgoing Attach Request at t=100: both phase flags are set. -/
def c5EndState : AttachState :=
  { attachInit with
      attach_req_timestamp := some 100, attach_accept_timestamp := some 1,
      pending_attach := true, accepting_attach := true,
      prev_log := some [⟨some "nas_eps.nas_msg_emm_type", some "65", none, none⟩] }

/-- C5 counterexample: after OUT Attach Request (t=0), IN Attach Accept (t=1)
and a second OUT Attach Request at t=100 (outside the window, so no
concurrent reset), the Attach analyzer has pending_attach and
accepting_attach simultaneously true. -/
theorem flagsC5_counterexample :
    attachRun attachInit
        [⟨.emmOut, 0, [⟨some "nas_eps.nas_msg_emm_type", some "65", none, none⟩]⟩,
         ⟨.emmIn, 1, [⟨some "nas_eps.nas_msg_emm_type", some "66", none, none⟩]⟩,
         ⟨.emmOut, 100, [⟨some "nas_eps.nas_msg_emm_type", some "65", none, none⟩]⟩] =
      .ok (c5EndState, []) ∧
    c5EndState.pending_attach = true ∧ c5EndState.accepting_attach = true := by
  refine ⟨by rfl, by decide, by decide⟩

/-- C5 (amended): in the Attach and TAU analyzers the two phase flags are not
mutually exclusive.  For any single-field message handled from a state where
at most one flag is set, both flags can only be set afterwards when the
message is an outgoing Attach Request (show 65, resp. TAU Request, show 72)
handled while the accepting flag is set: that request turns the pending flag
on without clearing the accepting flag. -/
theorem flagsC5_amended :
    (∀ (s : AttachState) (ty : MsgType) (now : Int) (f : XmlField) (s' : AttachState)
        (pubs : List KpiRec),
        ¬(s.pending_attach = true ∧ s.accepting_attach = true) →
        attachHandleMsg s ⟨ty, now, [f]⟩ = .ok (s', pubs) →
        s'.pending_attach = true ∧ s'.accepting_attach = true →
        ty = .emmOut ∧ f.show_ = some "65" ∧ s.accepting_attach = true) ∧
    (∀ (s : TauState) (ty : MsgType) (now : Int) (f : XmlField) (s' : TauState)
        (pubs : List KpiRec),
        ¬(s.pending_TAU = true ∧ s.accepting_TAU = true) →
        tauHandleMsg s ⟨ty, now, [f]⟩ = .ok (s', pubs) →
        s'.pending_TAU = true ∧ s'.accepting_TAU = true →
        ty = .emmOut ∧ f.show_ = some "72" ∧ s.accepting_TAU = true) := by
  constructor
  · intro s ty now f s' pubs hnb hok hboth
    cases ty with
    | emmIn => exact absurd hboth (attachC5auxIn s now f s' pubs hnb hok)
    | emmOut => exact ⟨rfl, attachC5auxOut s now f s' pubs hnb hok hboth⟩
    | rrc =>
      simp only [attachHandleMsg] at hok
      simp at hok
      rcases hok with ⟨rfl, rfl⟩
      exact absurd hboth hnb
  · intro s ty now f s' pubs hnb hok hboth
    cases ty with
    | emmIn => exact absurd hboth (tauC5auxIn s now f s' pubs hnb hok)
    | emmOut => exact ⟨rfl, tauC5auxOut s now f s' pubs hnb hok hboth⟩
    | rrc => exact absurd hboth (tauC5auxRrc s now f s' pubs hnb hok)

/-- C5 witness: the amended characterization applied at the concrete
flag-violating step of the counterexample trace. -/
theorem flagsC5_witness :
    MsgType.emmOut = MsgType.emmOut ∧
    (⟨some "nas_eps.nas_msg_emm_type", some "65", none, none⟩ : XmlField).show_ = some "65" ∧
    c5MidState.accepting_attach = true :=
  flagsC5_amended.1 c5MidState .emmOut 100
    ⟨some "nas_eps.nas_msg_emm_type", some "65", none, none⟩ c5EndState []
    (by decide) (by rfl) (by decide)

/-- The amended table-transition property: an entry's next value is its old
value, the sentinel, or the current message timestamp. -/
def hoOk (old new now : Int) : Prop := new = old ∨ new = datetimeMin ∨ new = now

set_option maxHeartbeats 8000000 in
theorem tableC6auxIn (s : IdState) (now : Int) (f : XmlField)
    (s' : IdState) (pubs : List KpiRec)
    (hok : idHandleMsg s ⟨.emmIn, now, [f]⟩ = .ok (s', pubs)) :
    hoOk s.hoIdentification s'.hoIdentification now ∧
    hoOk s.hoSecurity s'.hoSecurity now ∧
    hoOk s.hoGUTI s'.hoGUTI now ∧
    hoOk s.hoAuthentication s'.hoAuthentication now ∧
    hoOk s.hoDetach s'.hoDetach now ∧
    hoOk s.hoTAU s'.hoTAU now := by
  simp only [idHandleMsg, List.foldlM_cons, List.foldlM_nil] at hok
  by_cases hn : f.name = some "nas_eps.nas_msg_emm_type"
  case neg =>
    simp [idFieldIn, hn] at hok
    obtain ⟨hs, -⟩ := hok; subst hs; simp [hoOk]
  by_cases h68 : f.show_ = some "68"
  case pos =>
    simp [idFieldIn, hn, h68] at hok
    obtain ⟨hs, -⟩ := hok; subst hs; simp [hoOk]
  by_cases h69 : f.show_ = some "69"
  case pos =>
    simp [idFieldIn, hn, h68, h69] at hok
    obtain ⟨hs, -⟩ := hok; subst hs; simp [hoOk]
  by_cases h70 : f.show_ = some "70"
  case pos =>
    simp [idFieldIn, hn, h68, h69, h70] at hok
    obtain ⟨hs, -⟩ := hok; subst hs; simp [hoOk]
  by_cases h75 : f.show_ = some "75"
  case pos =>
    simp [idFieldIn, hn, h68, h69, h70, h75] at hok
    obtain ⟨hs, -⟩ := hok; subst hs; simp [hoOk]
  by_cases h78 : f.show_ = some "78"
  case pos =>
    simp [idFieldIn, hn, h68, h69, h70, h75, h78] at hok
    obtain ⟨hs, -⟩ := hok; subst hs; simp [hoOk]
  by_cases h79 : f.show_ = some "79"
  case pos =>
    simp [idFieldIn, hn, h68, h69, h70, h75, h78, h79] at hok
    obtain ⟨hs, -⟩ := hok; subst hs; simp [hoOk]
  by_cases h80 : f.show_ = some "80"
  case pos =>
    simp [idFieldIn, hn, h68, h69, h70, h75, h78, h79, h80] at hok
    obtain ⟨hs, -⟩ := hok; subst hs; simp [hoOk]
  by_cases h82 : f.show_ = some "82"
  case pos =>
    simp [idFieldIn, hn, h68, h69, h70, h75, h78, h79, h80, h82] at hok
    obtain ⟨hs, -⟩ := hok; subst hs; simp [hoOk]
  by_cases h84 : f.show_ = some "84"
  case pos =>
    simp [idFieldIn, hn, h68, h69, h70, h75, h78, h79, h80, h82, h84] at hok
    obtain ⟨hs, -⟩ := hok; subst hs; simp [hoOk]
  by_cases h85 : f.show_ = some "85"
  case pos =>
    obtain ⟨k, irt, art, pid, pat, ps, ptau, to_, pal, th, e1, e2, e3, e4, e5, e6⟩ := s
    simp only [idFieldIn, hn, h68, h69, h70, h75, h78, h79, h80, h82, h84, h85] at hok
    cases irt <;> simp at hok <;> (try split_ifs at hok) <;>
      (try rcases hok with ⟨rfl, rfl⟩) <;> (try split_ifs) <;> simp_all [idReset, hoOk]
  by_cases h93 : f.show_ = some "93"
  case pos =>
    simp [idFieldIn, hn, h68, h69, h70, h75, h78, h79, h80, h82, h84, h85, h93] at hok
    obtain ⟨hs, -⟩ := hok; subst hs; simp [hoOk]
  simp [idFieldIn, hn, h68, h69, h70, h75, h78, h79, h80, h82, h84, h85, h93] at hok
  obtain ⟨hs, -⟩ := hok; subst hs; simp [hoOk]

set_option maxHeartbeats 8000000 in
theorem tableC6auxOut (s : IdState) (now : Int) (f : XmlField)
    (s' : IdState) (pubs : List KpiRec)
    (hok : idHandleMsg s ⟨.emmOut, now, [f]⟩ = .ok (s', pubs)) :
    hoOk s.hoIdentification s'.hoIdentification now ∧
    hoOk s.hoSecurity s'.hoSecurity now ∧
    hoOk s.hoGUTI s'.hoGUTI now ∧
    hoOk s.hoAuthentication s'.hoAuthentication now ∧
    hoOk s.hoDetach s'.hoDetach now ∧
    hoOk s.hoTAU s'.hoTAU now := by
  simp only [idHandleMsg, List.foldlM_cons, List.foldlM_nil] at hok
  by_cases hn : f.name = some "nas_eps.nas_msg_emm_type"
  case pos =>
    by_cases h65 : f.show_ = some "65"
    case pos =>
      obtain ⟨k, irt, art, pid, pat, ps, ptau, to_, pal, th, e1, e2, e3, e4, e5, e6⟩ := s
      simp only [idFieldOut, hn, h65] at hok
      cases irt <;> cases pal <;> simp at hok <;> (try split_ifs at hok) <;>
        (try rcases hok with ⟨rfl, rfl⟩) <;> (try split_ifs) <;> simp_all [idReset, hoOk]
    by_cases h67 : f.show_ = some "67"
    case pos =>
      simp [idFieldOut, hn, h65, h67] at hok
      obtain ⟨hs, -⟩ := hok; subst hs; simp [hoOk]
    by_cases h69 : f.show_ = some "69"
    case pos =>
      obtain ⟨k, irt, art, pid, pat, ps, ptau, to_, pal, th, e1, e2, e3, e4, e5, e6⟩ := s
      simp only [idFieldOut, hn, h65, h67, h69, List.foldl_cons, List.foldl_nil] at hok
      cases irt <;> simp at hok <;> (try split_ifs at hok) <;>
        (try rcases hok with ⟨rfl, rfl⟩) <;> (try split_ifs) <;> simp_all [idReset, hoOk]
    by_cases h70 : f.show_ = some "70"
    case pos =>
      simp [idFieldOut, hn, h65, h67, h69, h70] at hok
      obtain ⟨hs, -⟩ := hok; subst hs; simp [hoOk]
    by_cases h72 : f.show_ = some "72"
    case pos =>
      simp [idFieldOut, hn, h65, h67, h69, h70, h72] at hok
      obtain ⟨hs, -⟩ := hok; subst hs; simp [hoOk]
    by_cases h74 : f.show_ = some "74"
    case pos =>
      simp [idFieldOut, hn, h65, h67, h69, h70, h72, h74] at hok
      obtain ⟨hs, -⟩ := hok; subst hs; simp [hoOk]
    by_cases h81 : f.show_ = some "81"
    case pos =>
      simp [idFieldOut, hn, h65, h67, h69, h70, h72, h74, h81] at hok
      obtain ⟨hs, -⟩ := hok; subst hs; simp [hoOk]
    by_cases h83 : f.show_ = some "83"
    case pos =>
      simp [idFieldOut, hn, h65, h67, h69, h70, h72, h74, h81, h83] at hok
      obtain ⟨hs, -⟩ := hok; subst hs; simp [hoOk]
    by_cases h92 : f.show_ = some "92"
    case pos =>
      simp [idFieldOut, hn, h65, h67, h69, h70, h72, h74, h81, h83, h92] at hok
      obtain ⟨hs, -⟩ := hok; subst hs; simp [hoOk]
    by_cases h86 : f.show_ = some "86"
    case pos =>
      simp [idFieldOut, hn, h65, h67, h69, h70, h72, h74, h81, h83, h92, h86] at hok
      obtain ⟨hs, -⟩ := hok; subst hs; simp [idReset, hoOk]
    by_cases h94 : f.show_ = some "94"
    case pos =>
      simp [idFieldOut, hn, h65, h67, h69, h70, h72, h74, h81, h83, h92, h86, h94] at hok
      obtain ⟨hs, -⟩ := hok; subst hs; simp [hoOk]
    by_cases h95 : f.show_ = some "95"
    case pos =>
      simp [idFieldOut, hn, h65, h67, h69, h70, h72, h74, h81, h83, h92, h86, h94, h95] at hok
      obtain ⟨hs, -⟩ := hok; subst hs; simp [hoOk]
    by_cases h255 : f.show_ = some "255"
    case pos =>
      simp [idFieldOut, hn, h65, h67, h69, h70, h72, h74, h81, h83, h92, h86, h94, h95, h255] at hok
      (try split_ifs at hok) <;> (try (rcases hok with ⟨rfl, rfl⟩)) <;> simp_all [hoOk]
    simp [idFieldOut, hn, h65, h67, h69, h70, h72, h74, h81, h83, h92, h86, h94, h95, h255] at hok
    obtain ⟨hs, -⟩ := hok; subst hs; simp [hoOk]
  case neg =>
    by_cases hm : f.name = some "gsm_a.ie.mobileid.type"
    case pos =>
      obtain ⟨nm, sh, sn, vl⟩ := f
      simp only [idFieldOut] at hok
      cases sn <;> simp [hn, hm] at hok <;> (try split_ifs at hok) <;>
        (try rcases hok with ⟨rfl, rfl⟩) <;> (try split_ifs) <;> simp_all [idReset, hoOk]
    case neg =>
      simp [idFieldOut, hn, hm] at hok
      obtain ⟨hs, -⟩ := hok; subst hs; simp [hoOk]

theorem tableC6auxRrc (s : IdState) (now : Int) (f : XmlField)
    (s' : IdState) (pubs : List KpiRec)
    (hok : idHandleMsg s ⟨.rrc, now, [f]⟩ = .ok (s', pubs)) :
    hoOk s.hoIdentification s'.hoIdentification now ∧
    hoOk s.hoSecurity s'.hoSecurity now ∧
    hoOk s.hoGUTI s'.hoGUTI now ∧
    hoOk s.hoAuthentication s'.hoAuthentication now ∧
    hoOk s.hoDetach s'.hoDetach now ∧
    hoOk s.hoTAU s'.hoTAU now := by
  obtain ⟨nm, sh, sn, vl⟩ := f
  simp only [idHandleMsg, List.foldlM_cons, List.foldlM_nil, idFieldRrc] at hok
  cases sn <;> simp at hok <;> (try split_ifs at hok) <;>
    (try rcases hok with ⟨rfl, rfl⟩) <;> (try split_ifs) <;> simp_all [idReset, hoOk]

set_option maxHeartbeats 8000000 in
theorem tauC6auxIn (s : TauState) (now : Int) (f : XmlField)
    (s' : TauState) (pubs : List KpiRec)
    (hok : tauHandleMsg s ⟨.emmIn, now, [f]⟩ = .ok (s', pubs)) :
    hoOk s.hoIdentification s'.hoIdentification now ∧
    hoOk s.hoSecurity s'.hoSecurity now ∧
    hoOk s.hoGUTI s'.hoGUTI now ∧
    hoOk s.hoAuthentication s'.hoAuthentication now ∧
    hoOk s.hoDetach s'.hoDetach now ∧
    hoOk s.hoTAU s'.hoTAU now := by
  simp only [tauHandleMsg, List.foldlM_cons, List.foldlM_nil] at hok
  have hl : ([f] : List XmlField).getLast? = some f := rfl
  obtain ⟨k, rt, at_, pt, ac, to_, pl, th, g1, g2, g3, g4, g5, g6⟩ := s
  by_cases hn : f.name = some "nas_eps.nas_msg_emm_type"
  case neg =>
    simp [tauFieldIn, hn] at hok
    obtain ⟨hs, -⟩ := hok; subst hs; simp [hoOk]
  by_cases h69 : f.show_ = some "69"
  case pos =>
    simp only [tauFieldIn, hl, hn, h69, List.foldl_cons, List.foldl_nil] at hok
    generalize hg : tauScanStep f = st at hok
    obtain ⟨dt, ci⟩ := st
    simp at hok
    (try split_ifs at hok) <;> (try rcases hok with ⟨rfl, rfl⟩) <;> (try split_ifs) <;>
      (try simp_all [tauReset, hoOk, apply_ite]) <;> (try omega)
  by_cases h70 : f.show_ = some "70"
  case pos =>
    simp [tauFieldIn, hn, h69, h70] at hok
    obtain ⟨hs, -⟩ := hok; subst hs; simp [hoOk]
  by_cases h73 : f.show_ = some "73"
  case pos =>
    simp only [tauFieldIn, hn, h69, h70, h73] at hok
    cases at_ <;> simp at hok <;> (try split_ifs at hok) <;>
      (try rcases hok with ⟨rfl, rfl⟩) <;> (try split_ifs) <;> (try simp_all [tauReset, hoOk, apply_ite]) <;> (try omega)
  by_cases h75 : f.show_ = some "75"
  case pos =>
    simp only [tauFieldIn, hn, h69, h70, h73, h75, List.foldl_cons, List.foldl_nil] at hok
    simp at hok
    (try split_ifs at hok) <;> (try rcases hok with ⟨rfl, rfl⟩) <;> (try split_ifs) <;>
      (try simp_all [tauReset, hoOk, apply_ite]) <;> (try omega)
  by_cases h80 : f.show_ = some "80"
  case pos =>
    simp [tauFieldIn, hn, h69, h70, h73, h75, h80] at hok
    obtain ⟨hs, -⟩ := hok; subst hs; simp [hoOk]
  by_cases h82 : f.show_ = some "82"
  case pos =>
    simp [tauFieldIn, hn, h69, h70, h73, h75, h80, h82] at hok
    obtain ⟨hs, -⟩ := hok; subst hs; simp [hoOk]
  by_cases h84 : f.show_ = some "84"
  case pos =>
    simp [tauFieldIn, hn, h69, h70, h73, h75, h80, h82, h84] at hok
    obtain ⟨hs, -⟩ := hok; subst hs; simp [hoOk]
  by_cases h85 : f.show_ = some "85"
  case pos =>
    simp [tauFieldIn, hn, h69, h70, h73, h75, h80, h82, h84, h85] at hok
    obtain ⟨hs, -⟩ := hok; subst hs; simp [hoOk]
  by_cases h93 : f.show_ = some "93"
  case pos =>
    simp [tauFieldIn, hn, h69, h70, h73, h75, h80, h82, h84, h85, h93] at hok
    obtain ⟨hs, -⟩ := hok; subst hs; simp [hoOk]
  simp [tauFieldIn, hn, h69, h70, h73, h75, h80, h82, h84, h85, h93] at hok
  obtain ⟨hs, -⟩ := hok; subst hs; simp [hoOk]

set_option maxHeartbeats 8000000 in
theorem tauC6auxOut (s : TauState) (now : Int) (f : XmlField)
    (s' : TauState) (pubs : List KpiRec)
    (hok : tauHandleMsg s ⟨.emmOut, now, [f]⟩ = .ok (s', pubs)) :
    hoOk s.hoIdentification s'.hoIdentification now ∧
    hoOk s.hoSecurity s'.hoSecurity now ∧
    hoOk s.hoGUTI s'.hoGUTI now ∧
    hoOk s.hoAuthentication s'.hoAuthentication now ∧
    hoOk s.hoDetach s'.hoDetach now ∧
    hoOk s.hoTAU s'.hoTAU now := by
  simp only [tauHandleMsg, List.foldlM_cons, List.foldlM_nil] at hok
  obtain ⟨k, rt, at_, pt, ac, to_, pl, th, g1, g2, g3, g4, g5, g6⟩ := s
  by_cases hn : f.name = some "nas_eps.nas_msg_emm_type"
  case neg =>
    simp [tauFieldOut, hn] at hok
    obtain ⟨hs, -⟩ := hok; subst hs; simp [hoOk]
  by_cases h69 : f.show_ = some "69"
  case pos =>
    simp only [tauFieldOut, hn, h69, List.foldl_cons, List.foldl_nil] at hok
    simp at hok
    (try split_ifs at hok) <;> (try rcases hok with ⟨rfl, rfl⟩) <;> (try split_ifs) <;>
      (try simp_all [tauReset, hoOk, apply_ite]) <;> (try omega)
  by_cases h70 : f.show_ = some "70"
  case pos =>
    simp [tauFieldOut, hn, h69, h70] at hok
    obtain ⟨hs, -⟩ := hok; subst hs; simp [hoOk]
  by_cases h72 : f.show_ = some "72"
  case pos =>
    simp only [tauFieldOut, hn, h69, h70, h72] at hok
    cases pt <;> cases ac <;> cases rt <;> cases at_ <;> cases pl <;> simp at hok <;>
      (try split_ifs at hok) <;> (try rcases hok with ⟨rfl, rfl⟩) <;> (try split_ifs) <;>
      (try simp_all [tauReset, hoOk, apply_ite]) <;> (try omega)
  by_cases h74 : f.show_ = some "74"
  case pos =>
    simp only [tauFieldOut, hn, h69, h70, h72, h74] at hok
    cases at_ <;> simp at hok <;> (try split_ifs at hok) <;>
      (try rcases hok with ⟨rfl, rfl⟩) <;> (try split_ifs) <;> (try simp_all [tauReset, hoOk, apply_ite]) <;> (try omega)
  by_cases h81 : f.show_ = some "81"
  case pos =>
    simp [tauFieldOut, hn, h69, h70, h72, h74, h81] at hok
    obtain ⟨hs, -⟩ := hok; subst hs; simp [hoOk]
  by_cases h83 : f.show_ = some "83"
  case pos =>
    simp [tauFieldOut, hn, h69, h70, h72, h74, h81, h83] at hok
    obtain ⟨hs, -⟩ := hok; subst hs; simp [hoOk]
  by_cases h92 : f.show_ = some "92"
  case pos =>
    simp [tauFieldOut, hn, h69, h70, h72, h74, h81, h83, h92] at hok
    obtain ⟨hs, -⟩ := hok; subst hs; simp [hoOk]
  by_cases h86 : f.show_ = some "86"
  case pos =>
    simp [tauFieldOut, hn, h69, h70, h72, h74, h81, h83, h92, h86] at hok
    obtain ⟨hs, -⟩ := hok; subst hs; simp [hoOk]
  by_cases h94 : f.show_ = some "94"
  case pos =>
    simp [tauFieldOut, hn, h69, h70, h72, h74, h81, h83, h92, h86, h94] at hok
    obtain ⟨hs, -⟩ := hok; subst hs; simp [hoOk]
  by_cases h95 : f.show_ = some "95"
  case pos =>
    simp [tauFieldOut, hn, h69, h70, h72, h74, h81, h83, h92, h86, h94, h95] at hok
    obtain ⟨hs, -⟩ := hok; subst hs; simp [hoOk]
  simp [tauFieldOut, hn, h69, h70, h72, h74, h81, h83, h92, h86, h94, h95] at hok
  obtain ⟨hs, -⟩ := hok; subst hs; simp [hoOk]

theorem tauC6auxRrc (s : TauState) (now : Int) (f : XmlField)
    (s' : TauState) (pubs : List KpiRec)
    (hok : tauHandleMsg s ⟨.rrc, now, [f]⟩ = .ok (s', pubs)) :
    hoOk s.hoIdentification s'.hoIdentification now ∧
    hoOk s.hoSecurity s'.hoSecurity now ∧
    hoOk s.hoGUTI s'.hoGUTI now ∧
    hoOk s.hoAuthentication s'.hoAuthentication now ∧
    hoOk s.hoDetach s'.hoDetach now ∧
    hoOk s.hoTAU s'.hoTAU now := by
  obtain ⟨nm, sh, sn, vl⟩ := f
  simp only [tauHandleMsg, List.foldlM_cons, List.foldlM_nil, tauFieldRrc] at hok
  cases sn <;> simp at hok <;> (try split_ifs at hok) <;>
    (try rcases hok with ⟨rfl, rfl⟩) <;> (try split_ifs) <;> (try simp_all [tauReset, hoOk, apply_ite]) <;> (try omega)

set_option maxHeartbeats 8000000 in
theorem secC6auxIn (s : SecState) (now : Int) (f : XmlField)
    (s' : SecState) (pubs : List KpiRec)
    (hok : secHandleMsg s ⟨.emmIn, now, [f]⟩ = .ok (s', pubs)) :
    hoOk s.hoIdentification s'.hoIdentification now ∧
    hoOk s.hoSecurity s'.hoSecurity now ∧
    hoOk s.hoGUTI s'.hoGUTI now ∧
    hoOk s.hoAuthentication s'.hoAuthentication now ∧
    hoOk s.hoDetach s'.hoDetach now ∧
    hoOk s.hoTAU s'.hoTAU now := by
  simp only [secHandleMsg, List.foldlM_cons, List.foldlM_nil] at hok
  obtain ⟨k, smt, psm, ps, pt, to_, pl, th, g1, g2, g3, g4, g5, g6⟩ := s
  by_cases hn : f.name = some "nas_eps.nas_msg_emm_type"
  case neg =>
    simp [secFieldIn, hn] at hok
    obtain ⟨hs, -⟩ := hok; subst hs; simp [hoOk]
  by_cases h69 : f.show_ = some "69"
  case pos =>
    simp [secFieldIn, hn, h69] at hok
    obtain ⟨hs, -⟩ := hok; subst hs; simp [hoOk]
  by_cases h70 : f.show_ = some "70"
  case pos =>
    simp [secFieldIn, hn, h69, h70] at hok
    obtain ⟨hs, -⟩ := hok; subst hs; simp [hoOk]
  by_cases h75 : f.show_ = some "75"
  case pos =>
    simp [secFieldIn, hn, h69, h70, h75] at hok
    obtain ⟨hs, -⟩ := hok; subst hs; simp [hoOk]
  by_cases h78 : f.show_ = some "78"
  case pos =>
    simp [secFieldIn, hn, h69, h70, h75, h78] at hok
    obtain ⟨hs, -⟩ := hok; subst hs; simp [hoOk]
  by_cases h79 : f.show_ = some "79"
  case pos =>
    simp [secFieldIn, hn, h69, h70, h75, h78, h79] at hok
    obtain ⟨hs, -⟩ := hok; subst hs; simp [hoOk]
  by_cases h80 : f.show_ = some "80"
  case pos =>
    simp [secFieldIn, hn, h69, h70, h75, h78, h79, h80] at hok
    obtain ⟨hs, -⟩ := hok; subst hs; simp [hoOk]
  by_cases h82 : f.show_ = some "82"
  case pos =>
    simp [secFieldIn, hn, h69, h70, h75, h78, h79, h80, h82] at hok
    obtain ⟨hs, -⟩ := hok; subst hs; simp [hoOk]
  by_cases h84 : f.show_ = some "84"
  case pos =>
    simp [secFieldIn, hn, h69, h70, h75, h78, h79, h80, h82, h84] at hok
    obtain ⟨hs, -⟩ := hok; subst hs; simp [hoOk]
  by_cases h85 : f.show_ = some "85"
  case pos =>
    simp [secFieldIn, hn, h69, h70, h75, h78, h79, h80, h82, h84, h85] at hok
    obtain ⟨hs, -⟩ := hok; subst hs; simp [hoOk]
  by_cases h93 : f.show_ = some "93"
  case pos =>
    simp only [secFieldIn, hn, h69, h70, h75, h78, h79, h80, h82, h84, h85, h93] at hok
    cases smt <;> simp at hok <;> (try split_ifs at hok) <;>
      (try rcases hok with ⟨rfl, rfl⟩) <;> (try split_ifs) <;>
      (try simp_all [secReset, hoOk, apply_ite]) <;> (try omega)
  simp [secFieldIn, hn, h69, h70, h75, h78, h79, h80, h82, h84, h85, h93] at hok
  obtain ⟨hs, -⟩ := hok; subst hs; simp [hoOk]

set_option maxHeartbeats 8000000 in
theorem secC6auxOut (s : SecState) (now : Int) (f : XmlField)
    (s' : SecState) (pubs : List KpiRec)
    (hok : secHandleMsg s ⟨.emmOut, now, [f]⟩ = .ok (s', pubs)) :
    hoOk s.hoIdentification s'.hoIdentification now ∧
    hoOk s.hoSecurity s'.hoSecurity now ∧
    hoOk s.hoGUTI s'.hoGUTI now ∧
    hoOk s.hoAuthentication s'.hoAuthentication now ∧
    hoOk s.hoDetach s'.hoDetach now ∧
    hoOk s.hoTAU s'.hoTAU now := by
  simp only [secHandleMsg, List.foldlM_cons, List.foldlM_nil] at hok
  obtain ⟨k, smt, psm, ps, pt, to_, pl, th, g1, g2, g3, g4, g5, g6⟩ := s
  by_cases hn : f.name = some "nas_eps.nas_msg_emm_type"
  case neg =>
    simp [secFieldOut, hn] at hok
    obtain ⟨hs, -⟩ := hok; subst hs; simp [hoOk]
  by_cases h65 : f.show_ = some "65"
  case pos =>
    simp only [secFieldOut, hn, h65] at hok
    cases smt <;> simp at hok <;> (try split_ifs at hok) <;>
      (try rcases hok with ⟨rfl, rfl⟩) <;> (try split_ifs) <;>
      (try simp_all [secReset, hoOk, apply_ite]) <;> (try omega)
  by_cases h72 : f.show_ = some "72"
  case pos =>
    simp only [secFieldOut, hn, h65, h72] at hok
    cases smt <;> simp at hok <;> (try split_ifs at hok) <;>
      (try rcases hok with ⟨rfl, rfl⟩) <;> (try split_ifs) <;>
      (try simp_all [secReset, hoOk, apply_ite]) <;> (try omega)
  by_cases h255 : f.show_ = some "255"
  case pos =>
    simp only [secFieldOut, hn, h65, h72, h255] at hok
    cases smt <;> simp at hok <;> (try split_ifs at hok) <;>
      (try rcases hok with ⟨rfl, rfl⟩) <;> (try split_ifs) <;>
      (try simp_all [secReset, hoOk, apply_ite]) <;> (try omega)
  by_cases h69 : f.show_ = some "69"
  case pos =>
    simp only [secFieldOut, hn, h65, h72, h255, h69] at hok
    cases smt <;> simp [secDetachScan, secQualifies] at hok <;> (try split_ifs at hok) <;>
      (try rcases hok with ⟨rfl, rfl⟩) <;> (try split_ifs) <;>
      (try simp_all [secReset, hoOk, apply_ite]) <;> (try omega)
  by_cases h70 : f.show_ = some "70"
  case pos =>
    simp [secFieldOut, hn, h65, h72, h255, h69, h70] at hok
    obtain ⟨hs, -⟩ := hok; subst hs; simp [hoOk]
  by_cases h74 : f.show_ = some "74"
  case pos =>
    simp [secFieldOut, hn, h65, h72, h255, h69, h70, h74] at hok
    obtain ⟨hs, -⟩ := hok; subst hs; simp [hoOk]
  by_cases h81 : f.show_ = some "81"
  case pos =>
    simp [secFieldOut, hn, h65, h72, h255, h69, h70, h74, h81] at hok
    obtain ⟨hs, -⟩ := hok; subst hs; simp [hoOk]
  by_cases h83 : f.show_ = some "83"
  case pos =>
    simp [secFieldOut, hn, h65, h72, h255, h69, h70, h74, h81, h83] at hok
    obtain ⟨hs, -⟩ := hok; subst hs; simp [hoOk]
  by_cases h92 : f.show_ = some "92"
  case pos =>
    simp [secFieldOut, hn, h65, h72, h255, h69, h70, h74, h81, h83, h92] at hok
    obtain ⟨hs, -⟩ := hok; subst hs; simp [hoOk]
  by_cases h86 : f.show_ = some "86"
  case pos =>
    simp [secFieldOut, hn, h65, h72, h255, h69, h70, h74, h81, h83, h92, h86] at hok
    obtain ⟨hs, -⟩ := hok; subst hs; simp [hoOk]
  by_cases h94 : f.show_ = some "94"
  case pos =>
    simp [secFieldOut, hn, h65, h72, h255, h69, h70, h74, h81, h83, h92, h86, h94] at hok
    obtain ⟨hs, -⟩ := hok; subst hs; simp [secReset, hoOk]
  by_cases h95 : f.show_ = some "95"
  case pos =>
    simp [secFieldOut, hn, h65, h72, h255, h69, h70, h74, h81, h83, h92, h86, h94, h95] at hok
    obtain ⟨hs, -⟩ := hok; subst hs; simp [secReset, hoOk]
  simp [secFieldOut, hn, h65, h72, h255, h69, h70, h74, h81, h83, h92, h86, h94, h95] at hok
  obtain ⟨hs, -⟩ := hok; subst hs; simp [hoOk]

theorem secC6auxRrc (s : SecState) (now : Int) (f : XmlField)
    (s' : SecState) (pubs : List KpiRec)
    (hok : secHandleMsg s ⟨.rrc, now, [f]⟩ = .ok (s', pubs)) :
    hoOk s.hoIdentification s'.hoIdentification now ∧
    hoOk s.hoSecurity s'.hoSecurity now ∧
    hoOk s.hoGUTI s'.hoGUTI now ∧
    hoOk s.hoAuthentication s'.hoAuthentication now ∧
    hoOk s.hoDetach s'.hoDetach now ∧
    hoOk s.hoTAU s'.hoTAU now := by
  obtain ⟨nm, sh, sn, vl⟩ := f
  simp only [secHandleMsg, List.foldlM_cons, List.foldlM_nil, secFieldRrc] at hok
  cases sn <;> simp at hok <;> (try split_ifs at hok) <;>
    (try rcases hok with ⟨rfl, rfl⟩) <;> (try split_ifs) <;>
    (try simp_all [secReset, hoOk, apply_ite]) <;> (try omega)

set_option maxHeartbeats 8000000 in
theorem detachC6auxIn (s : DetachState) (now : Int) (f : XmlField)
    (s' : DetachState) (pubs : List KpiRec)
    (hok : detachHandleMsg s ⟨.emmIn, now, [f]⟩ = .ok (s', pubs)) :
    hoOk s.hoIdentification s'.hoIdentification now ∧
    hoOk s.hoSecurity s'.hoSecurity now ∧
    hoOk s.hoGUTI s'.hoGUTI now ∧
    hoOk s.hoAuthentication s'.hoAuthentication now ∧
    hoOk s.hoDetach s'.hoDetach now ∧
    hoOk s.hoTAU s'.hoTAU now := by
  simp only [detachHandleMsg, List.foldlM_cons, List.foldlM_nil] at hok
  obtain ⟨k, drt, pd, to_, pl, th, g1, g2, g3, g4, g5, g6⟩ := s
  by_cases hn : f.name = some "nas_eps.nas_msg_emm_type"
  case neg =>
    simp [detachFieldIn, hn] at hok
    obtain ⟨hs, -⟩ := hok; subst hs; simp [hoOk]
  by_cases h69 : f.show_ = some "69"
  case pos =>
    simp only [detachFieldIn, hn, h69, List.foldl_cons, List.foldl_nil] at hok
    cases drt <;> simp at hok <;> (try split_ifs at hok) <;>
      (try rcases hok with ⟨rfl, rfl⟩) <;> (try split_ifs) <;>
      (try simp_all [detachReset, hoOk, apply_ite]) <;> (try omega)
  by_cases h70 : f.show_ = some "70"
  case pos =>
    simp [detachFieldIn, hn, h69, h70] at hok
    obtain ⟨hs, -⟩ := hok; subst hs; simp [detachReset, hoOk]
  by_cases h75 : f.show_ = some "75"
  case pos =>
    simp [detachFieldIn, hn, h69, h70, h75] at hok
    obtain ⟨hs, -⟩ := hok; subst hs; simp [hoOk]
  by_cases h80 : f.show_ = some "80"
  case pos =>
    simp [detachFieldIn, hn, h69, h70, h75, h80] at hok
    obtain ⟨hs, -⟩ := hok; subst hs; simp [hoOk]
  by_cases h82 : f.show_ = some "82"
  case pos =>
    simp [detachFieldIn, hn, h69, h70, h75, h80, h82] at hok
    obtain ⟨hs, -⟩ := hok; subst hs; simp [hoOk]
  by_cases h84 : f.show_ = some "84"
  case pos =>
    simp [detachFieldIn, hn, h69, h70, h75, h80, h82, h84] at hok
    obtain ⟨hs, -⟩ := hok; subst hs; simp [hoOk]
  by_cases h85 : f.show_ = some "85"
  case pos =>
    simp [detachFieldIn, hn, h69, h70, h75, h80, h82, h84, h85] at hok
    obtain ⟨hs, -⟩ := hok; subst hs; simp [hoOk]
  by_cases h93 : f.show_ = some "93"
  case pos =>
    simp [detachFieldIn, hn, h69, h70, h75, h80, h82, h84, h85, h93] at hok
    obtain ⟨hs, -⟩ := hok; subst hs; simp [hoOk]
  simp [detachFieldIn, hn, h69, h70, h75, h80, h82, h84, h85, h93] at hok
  obtain ⟨hs, -⟩ := hok; subst hs; simp [hoOk]

set_option maxHeartbeats 8000000 in
theorem detachC6auxOut (s : DetachState) (now : Int) (f : XmlField)
    (s' : DetachState) (pubs : List KpiRec)
    (hok : detachHandleMsg s ⟨.emmOut, now, [f]⟩ = .ok (s', pubs)) :
    hoOk s.hoIdentification s'.hoIdentification now ∧
    hoOk s.hoSecurity s'.hoSecurity now ∧
    hoOk s.hoGUTI s'.hoGUTI now ∧
    hoOk s.hoAuthentication s'.hoAuthentication now ∧
    hoOk s.hoDetach s'.hoDetach now ∧
    hoOk s.hoTAU s'.hoTAU now := by
  simp only [detachHandleMsg, List.foldlM_cons, List.foldlM_nil] at hok
  obtain ⟨k, drt, pd, to_, pl, th, g1, g2, g3, g4, g5, g6⟩ := s
  by_cases hn : f.name = some "nas_eps.nas_msg_emm_type"
  case neg =>
    simp [detachFieldOut, hn] at hok
    obtain ⟨hs, -⟩ := hok; subst hs; simp [hoOk]
  by_cases h65 : f.show_ = some "65"
  case pos =>
    simp only [detachFieldOut, hn, h65] at hok
    cases drt with
    | none =>
      simp at hok
      obtain ⟨hs, -⟩ := hok; subst hs; simp [hoOk]
    | some t =>
      cases pl with
      | none =>
        simp at hok
        (try split_ifs at hok) <;> (try rcases hok with ⟨rfl, rfl⟩) <;> (try split_ifs) <;>
          (try simp_all [detachReset, hoOk, apply_ite]) <;> (try omega)
      | some L =>
        rcases hgl : L.getLast? with _ | lastSub
        · simp [hgl] at hok
          (try split_ifs at hok) <;> (try rcases hok with ⟨rfl, rfl⟩) <;> (try split_ifs) <;>
            (try simp_all [detachReset, hoOk, apply_ite]) <;> (try omega)
        · simp only [hgl] at hok
          generalize hg : detachScanStep65 lastSub = st at hok
          obtain ⟨dt, ci⟩ := st
          simp at hok
          (try split_ifs at hok) <;> (try rcases hok with ⟨rfl, rfl⟩) <;> (try split_ifs) <;>
            (try simp_all [detachReset, hoOk, apply_ite]) <;> (try omega)
  by_cases h69 : f.show_ = some "69"
  case pos =>
    simp only [detachFieldOut, hn, h65, h69] at hok
    cases drt <;> simp at hok <;> (try split_ifs at hok) <;>
      (try rcases hok with ⟨rfl, rfl⟩) <;> (try split_ifs) <;>
      (try simp_all [detachReset, hoOk, apply_ite]) <;> (try omega)
  by_cases h70 : f.show_ = some "70"
  case pos =>
    simp [detachFieldOut, hn, h65, h69, h70] at hok
    obtain ⟨hs, -⟩ := hok; subst hs; simp [detachReset, hoOk]
  by_cases h72 : f.show_ = some "72"
  case pos =>
    simp only [detachFieldOut, hn, h65, h69, h70, h72] at hok
    cases drt with
    | none =>
      simp at hok
      obtain ⟨hs, -⟩ := hok; subst hs; simp [hoOk]
    | some t =>
      cases pl with
      | none =>
        simp at hok
        (try split_ifs at hok) <;> (try rcases hok with ⟨rfl, rfl⟩) <;> (try split_ifs) <;>
          (try simp_all [detachReset, hoOk, apply_ite]) <;> (try omega)
      | some L =>
        rcases hgl : L.getLast? with _ | lastSub
        · simp [hgl] at hok
          (try split_ifs at hok) <;> (try rcases hok with ⟨rfl, rfl⟩) <;> (try split_ifs) <;>
            (try simp_all [detachReset, hoOk, apply_ite]) <;> (try omega)
        · simp only [hgl] at hok
          generalize hg : detachScanStep72 lastSub = st at hok
          obtain ⟨dt, ci⟩ := st
          simp at hok
          (try split_ifs at hok) <;> (try rcases hok with ⟨rfl, rfl⟩) <;> (try split_ifs) <;>
            (try simp_all [detachReset, hoOk, apply_ite]) <;> (try omega)
  by_cases h74 : f.show_ = some "74"
  case pos =>
    simp [detachFieldOut, hn, h65, h69, h70, h72, h74] at hok
    obtain ⟨hs, -⟩ := hok; subst hs; simp [hoOk]
  by_cases h81 : f.show_ = some "81"
  case pos =>
    simp [detachFieldOut, hn, h65, h69, h70, h72, h74, h81] at hok
    obtain ⟨hs, -⟩ := hok; subst hs; simp [hoOk]
  by_cases h83 : f.show_ = some "83"
  case pos =>
    simp [detachFieldOut, hn, h65, h69, h70, h72, h74, h81, h83] at hok
    obtain ⟨hs, -⟩ := hok; subst hs; simp [hoOk]
  by_cases h92 : f.show_ = some "92"
  case pos =>
    simp [detachFieldOut, hn, h65, h69, h70, h72, h74, h81, h83, h92] at hok
    obtain ⟨hs, -⟩ := hok; subst hs; simp [hoOk]
  by_cases h86 : f.show_ = some "86"
  case pos =>
    simp [detachFieldOut, hn, h65, h69, h70, h72, h74, h81, h83, h92, h86] at hok
    obtain ⟨hs, -⟩ := hok; subst hs; simp [hoOk]
  by_cases h94 : f.show_ = some "94"
  case pos =>
    simp [detachFieldOut, hn, h65, h69, h70, h72, h74, h81, h83, h92, h86, h94] at hok
    obtain ⟨hs, -⟩ := hok; subst hs; simp [hoOk]
  by_cases h95 : f.show_ = some "95"
  case pos =>
    simp [detachFieldOut, hn, h65, h69, h70, h72, h74, h81, h83, h92, h86, h94, h95] at hok
    obtain ⟨hs, -⟩ := hok; subst hs; simp [hoOk]
  simp [detachFieldOut, hn, h65, h69, h70, h72, h74, h81, h83, h92, h86, h94, h95] at hok
  obtain ⟨hs, -⟩ := hok; subst hs; simp [hoOk]

theorem detachC6auxRrc (s : DetachState) (now : Int) (f : XmlField)
    (s' : DetachState) (pubs : List KpiRec)
    (hok : detachHandleMsg s ⟨.rrc, now, [f]⟩ = .ok (s', pubs)) :
    hoOk s.hoIdentification s'.hoIdentification now ∧
    hoOk s.hoSecurity s'.hoSecurity now ∧
    hoOk s.hoGUTI s'.hoGUTI now ∧
    hoOk s.hoAuthentication s'.hoAuthentication now ∧
    hoOk s.hoDetach s'.hoDetach now ∧
    hoOk s.hoTAU s'.hoTAU now := by
  obtain ⟨nm, sh, sn, vl⟩ := f
  simp only [detachHandleMsg, List.foldlM_cons, List.foldlM_nil, detachFieldRrc] at hok
  cases sn <;> simp at hok <;> (try split_ifs at hok) <;>
    (try rcases hok with ⟨rfl, rfl⟩) <;> (try split_ifs) <;>
    (try simp_all [detachReset, hoOk, apply_ite]) <;> (try omega)

set_option maxHeartbeats 8000000 in
theorem authC6auxIn (s : AuthState) (now : Int) (f : XmlField)
    (s' : AuthState) (pubs : List KpiRec)
    (hok : authHandleMsg s ⟨.emmIn, now, [f]⟩ = .ok (s', pubs)) :
    hoOk s.hoIdentification s'.hoIdentification now ∧
    hoOk s.hoSecurity s'.hoSecurity now ∧
    hoOk s.hoGUTI s'.hoGUTI now ∧
    hoOk s.hoAuthentication s'.hoAuthentication now ∧
    hoOk s.hoDetach s'.hoDetach now ∧
    hoOk s.hoTAU s'.hoTAU now := by
  simp only [authHandleMsg, List.foldlM_cons, List.foldlM_nil] at hok
  obtain ⟨k, ats, pa, pt, ps, to_, pl, th, g1, g2, g3, g4, g5, g6⟩ := s
  by_cases hn : f.name = some "nas_eps.nas_msg_emm_type"
  case neg =>
    simp [authFieldIn, hn] at hok
    obtain ⟨hs, -⟩ := hok; subst hs; simp [hoOk]
  by_cases h69 : f.show_ = some "69"
  case pos =>
    simp [authFieldIn, hn, h69] at hok
    obtain ⟨hs, -⟩ := hok; subst hs; simp [hoOk]
  by_cases h70 : f.show_ = some "70"
  case pos =>
    simp [authFieldIn, hn, h69, h70] at hok
    obtain ⟨hs, -⟩ := hok; subst hs; simp [hoOk]
  by_cases h75 : f.show_ = some "75"
  case pos =>
    simp [authFieldIn, hn, h69, h70, h75] at hok
    obtain ⟨hs, -⟩ := hok; subst hs; simp [hoOk]
  by_cases h78 : f.show_ = some "78"
  case pos =>
    simp [authFieldIn, hn, h69, h70, h75, h78] at hok
    obtain ⟨hs, -⟩ := hok; subst hs; simp [hoOk]
  by_cases h79 : f.show_ = some "79"
  case pos =>
    simp [authFieldIn, hn, h69, h70, h75, h78, h79] at hok
    obtain ⟨hs, -⟩ := hok; subst hs; simp [hoOk]
  by_cases h80 : f.show_ = some "80"
  case pos =>
    simp [authFieldIn, hn, h69, h70, h75, h78, h79, h80] at hok
    obtain ⟨hs, -⟩ := hok; subst hs; simp [hoOk]
  by_cases h82 : f.show_ = some "82"
  case pos =>
    simp only [authFieldIn, hn, h69, h70, h75, h78, h79, h80, h82] at hok
    cases ats <;> simp at hok <;> (try split_ifs at hok) <;>
      (try rcases hok with ⟨rfl, rfl⟩) <;> (try split_ifs) <;>
      (try simp_all [authReset, hoOk, apply_ite]) <;> (try omega)
  by_cases h84 : f.show_ = some "84"
  case pos =>
    simp [authFieldIn, hn, h69, h70, h75, h78, h79, h80, h82, h84] at hok
    obtain ⟨hs, -⟩ := hok; subst hs; simp [authReset, hoOk]
  by_cases h85 : f.show_ = some "85"
  case pos =>
    simp [authFieldIn, hn, h69, h70, h75, h78, h79, h80, h82, h84, h85] at hok
    obtain ⟨hs, -⟩ := hok; subst hs; simp [hoOk]
  by_cases h93 : f.show_ = some "93"
  case pos =>
    simp [authFieldIn, hn, h69, h70, h75, h78, h79, h80, h82, h84, h85, h93] at hok
    obtain ⟨hs, -⟩ := hok; subst hs; simp [hoOk]
  simp [authFieldIn, hn, h69, h70, h75, h78, h79, h80, h82, h84, h85, h93] at hok
  obtain ⟨hs, -⟩ := hok; subst hs; simp [hoOk]

set_option maxHeartbeats 8000000 in
theorem authC6auxOut (s : AuthState) (now : Int) (f : XmlField)
    (s' : AuthState) (pubs : List KpiRec)
    (hok : authHandleMsg s ⟨.emmOut, now, [f]⟩ = .ok (s', pubs)) :
    hoOk s.hoIdentification s'.hoIdentification now ∧
    hoOk s.hoSecurity s'.hoSecurity now ∧
    hoOk s.hoGUTI s'.hoGUTI now ∧
    hoOk s.hoAuthentication s'.hoAuthentication now ∧
    hoOk s.hoDetach s'.hoDetach now ∧
    hoOk s.hoTAU s'.hoTAU now := by
  simp only [authHandleMsg, List.foldlM_cons, List.foldlM_nil] at hok
  obtain ⟨k, ats, pa, pt, ps, to_, pl, th, g1, g2, g3, g4, g5, g6⟩ := s
  by_cases hn : f.name = some "nas_eps.nas_msg_emm_type"
  case neg =>
    simp [authFieldOut, hn] at hok
    obtain ⟨hs, -⟩ := hok; subst hs; simp [hoOk]
  by_cases h69 : f.show_ = some "69"
  case pos =>
    simp [authFieldOut, hn, h69] at hok
    obtain ⟨hs, -⟩ := hok; subst hs; simp [hoOk]
  by_cases h70 : f.show_ = some "70"
  case pos =>
    simp [authFieldOut, hn, h69, h70] at hok
    obtain ⟨hs, -⟩ := hok; subst hs; simp [hoOk]
  by_cases h72 : f.show_ = some "72"
  case pos =>
    simp only [authFieldOut, hn, h69, h70, h72] at hok
    simp at hok
    (try split_ifs at hok) <;> (try rcases hok with ⟨rfl, rfl⟩) <;> (try split_ifs) <;>
      (try simp_all [authReset, hoOk, apply_ite]) <;> (try omega)
  by_cases h74 : f.show_ = some "74"
  case pos =>
    simp [authFieldOut, hn, h69, h70, h72, h74] at hok
    obtain ⟨hs, -⟩ := hok; subst hs; simp [hoOk]
  by_cases h81 : f.show_ = some "81"
  case pos =>
    simp [authFieldOut, hn, h69, h70, h72, h74, h81] at hok
    obtain ⟨hs, -⟩ := hok; subst hs; simp [hoOk]
  by_cases h83 : f.show_ = some "83"
  case pos =>
    simp [authFieldOut, hn, h69, h70, h72, h74, h81, h83] at hok
    obtain ⟨hs, -⟩ := hok; subst hs; simp [authReset, hoOk]
  by_cases h86 : f.show_ = some "86"
  case pos =>
    simp [authFieldOut, hn, h69, h70, h72, h74, h81, h83, h86] at hok
    obtain ⟨hs, -⟩ := hok; subst hs; simp [hoOk]
  by_cases h92 : f.show_ = some "92"
  case pos =>
    simp [authFieldOut, hn, h69, h70, h72, h74, h81, h83, h86, h92,
          List.foldl_cons, List.foldl_nil] at hok
    obtain ⟨hs, -⟩ := hok; subst hs; simp [authReset, hoOk]
  by_cases h94 : f.show_ = some "94"
  case pos =>
    simp [authFieldOut, hn, h69, h70, h72, h74, h81, h83, h86, h92, h94] at hok
    obtain ⟨hs, -⟩ := hok; subst hs; simp [hoOk]
  by_cases h95 : f.show_ = some "95"
  case pos =>
    simp [authFieldOut, hn, h69, h70, h72, h74, h81, h83, h86, h92, h94, h95] at hok
    obtain ⟨hs, -⟩ := hok; subst hs; simp [hoOk]
  by_cases h255 : f.show_ = some "255"
  case pos =>
    simp only [authFieldOut, hn, h69, h70, h72, h74, h81, h83, h86, h92, h94, h95, h255] at hok
    simp at hok
    (try split_ifs at hok) <;> (try rcases hok with ⟨rfl, rfl⟩) <;> (try split_ifs) <;>
      (try simp_all [authReset, hoOk, apply_ite]) <;> (try omega)
  simp [authFieldOut, hn, h69, h70, h72, h74, h81, h83, h86, h92, h94, h95, h255] at hok
  obtain ⟨hs, -⟩ := hok; subst hs; simp [hoOk]

theorem authC6auxRrc (s : AuthState) (now : Int) (f : XmlField)
    (s' : AuthState) (pubs : List KpiRec)
    (hok : authHandleMsg s ⟨.rrc, now, [f]⟩ = .ok (s', pubs)) :
    hoOk s.hoIdentification s'.hoIdentification now ∧
    hoOk s.hoSecurity s'.hoSecurity now ∧
    hoOk s.hoGUTI s'.hoGUTI now ∧
    hoOk s.hoAuthentication s'.hoAuthentication now ∧
    hoOk s.hoDetach s'.hoDetach now ∧
    hoOk s.hoTAU s'.hoTAU now := by
  obtain ⟨nm, sh, sn, vl⟩ := f
  simp only [authHandleMsg, List.foldlM_cons, List.foldlM_nil, authFieldRrc] at hok
  cases sn <;> simp at hok <;> (try split_ifs at hok) <;>
    (try rcases hok with ⟨rfl, rfl⟩) <;> (try split_ifs) <;>
    (try simp_all [authReset, hoOk, apply_ite]) <;> (try omega)

set_option maxHeartbeats 8000000 in
theorem gutiC6auxIn (s : GutiState) (now : Int) (f : XmlField)
    (s' : GutiState) (pubs : List KpiRec)
    (hok : gutiHandleMsg s ⟨.emmIn, now, [f]⟩ = .ok (s', pubs)) :
    hoOk s.hoIdentification s'.hoIdentification now ∧
    hoOk s.hoSecurity s'.hoSecurity now ∧
    hoOk s.hoGUTI s'.hoGUTI now ∧
    hoOk s.hoAuthentication s'.hoAuthentication now ∧
    hoOk s.hoDetach s'.hoDetach now ∧
    hoOk s.hoTAU s'.hoTAU now := by
  simp only [gutiHandleMsg, List.foldlM_cons, List.foldlM_nil] at hok
  obtain ⟨k, gt, pg, to_, pl, t0, th, g1, g2, g3, g4, g5, g6⟩ := s
  by_cases hn : f.name = some "nas_eps.nas_msg_emm_type"
  case neg =>
    simp [gutiFieldIn, hn] at hok
    obtain ⟨hs, -⟩ := hok; subst hs; simp [hoOk]
  by_cases h69 : f.show_ = some "69"
  case pos =>
    simp [gutiFieldIn, hn, h69] at hok
    obtain ⟨hs, -⟩ := hok; subst hs; simp [hoOk]
  by_cases h70 : f.show_ = some "70"
  case pos =>
    simp [gutiFieldIn, hn, h69, h70] at hok
    obtain ⟨hs, -⟩ := hok; subst hs; simp [hoOk]
  by_cases h75 : f.show_ = some "75"
  case pos =>
    simp [gutiFieldIn, hn, h69, h70, h75] at hok
    obtain ⟨hs, -⟩ := hok; subst hs; simp [hoOk]
  by_cases h80 : f.show_ = some "80"
  case pos =>
    simp only [gutiFieldIn, hn, h69, h70, h75, h80] at hok
    cases gt <;> simp at hok <;> (try split_ifs at hok) <;>
      (try rcases hok with ⟨rfl, rfl⟩) <;> (try split_ifs) <;>
      (try simp_all [gutiReset, hoOk, apply_ite]) <;> (try omega)
  by_cases h82 : f.show_ = some "82"
  case pos =>
    simp [gutiFieldIn, hn, h69, h70, h75, h80, h82] at hok
    obtain ⟨hs, -⟩ := hok; subst hs; simp [hoOk]
  by_cases h84 : f.show_ = some "84"
  case pos =>
    simp [gutiFieldIn, hn, h69, h70, h75, h80, h82, h84] at hok
    obtain ⟨hs, -⟩ := hok; subst hs; simp [hoOk]
  by_cases h85 : f.show_ = some "85"
  case pos =>
    simp [gutiFieldIn, hn, h69, h70, h75, h80, h82, h84, h85] at hok
    obtain ⟨hs, -⟩ := hok; subst hs; simp [hoOk]
  by_cases h93 : f.show_ = some "93"
  case pos =>
    simp [gutiFieldIn, hn, h69, h70, h75, h80, h82, h84, h85, h93] at hok
    obtain ⟨hs, -⟩ := hok; subst hs; simp [hoOk]
  simp [gutiFieldIn, hn, h69, h70, h75, h80, h82, h84, h85, h93] at hok
  obtain ⟨hs, -⟩ := hok; subst hs; simp [hoOk]

set_option maxHeartbeats 8000000 in
theorem gutiC6auxOut (s : GutiState) (now : Int) (f : XmlField)
    (s' : GutiState) (pubs : List KpiRec)
    (hok : gutiHandleMsg s ⟨.emmOut, now, [f]⟩ = .ok (s', pubs)) :
    hoOk s.hoIdentification s'.hoIdentification now ∧
    hoOk s.hoSecurity s'.hoSecurity now ∧
    hoOk s.hoGUTI s'.hoGUTI now ∧
    hoOk s.hoAuthentication s'.hoAuthentication now ∧
    hoOk s.hoDetach s'.hoDetach now ∧
    hoOk s.hoTAU s'.hoTAU now := by
  simp only [gutiHandleMsg, List.foldlM_cons, List.foldlM_nil] at hok
  obtain ⟨k, gt, pg, to_, pl, t0, th, g1, g2, g3, g4, g5, g6⟩ := s
  by_cases hn : f.name = some "nas_eps.nas_msg_emm_type"
  case neg =>
    simp [gutiFieldOut, hn] at hok
    obtain ⟨hs, -⟩ := hok; subst hs; simp [hoOk]
  by_cases h65 : f.show_ = some "65"
  case pos =>
    simp only [gutiFieldOut, hn, h65] at hok
    cases gt <;> simp at hok <;> (try split_ifs at hok) <;>
      (try rcases hok with ⟨rfl, rfl⟩) <;> (try split_ifs) <;>
      (try simp_all [gutiReset, hoOk, apply_ite]) <;> (try omega)
  by_cases h69 : f.show_ = some "69"
  case pos =>
    simp only [gutiFieldOut, hn, h65, h69] at hok
    cases gt <;> simp at hok <;> (try split_ifs at hok) <;>
      (try rcases hok with ⟨rfl, rfl⟩) <;> (try split_ifs) <;>
      (try simp_all [gutiReset, hoOk, apply_ite]) <;> (try omega)
  by_cases h72 : f.show_ = some "72"
  case pos =>
    simp only [gutiFieldOut, hn, h65, h69, h72] at hok
    cases gt <;> simp at hok <;> (try split_ifs at hok) <;>
      (try rcases hok with ⟨rfl, rfl⟩) <;> (try split_ifs) <;>
      (try simp_all [gutiReset, hoOk, apply_ite]) <;> (try omega)
  by_cases h255 : f.show_ = some "255"
  case pos =>
    simp only [gutiFieldOut, hn, h65, h69, h72, h255] at hok
    cases gt <;> simp at hok <;> (try split_ifs at hok) <;>
      (try rcases hok with ⟨rfl, rfl⟩) <;> (try split_ifs) <;>
      (try simp_all [gutiReset, hoOk, apply_ite]) <;> (try omega)
  by_cases h70 : f.show_ = some "70"
  case pos =>
    simp [gutiFieldOut, hn, h65, h69, h72, h255, h70] at hok
    obtain ⟨hs, -⟩ := hok; subst hs; simp [hoOk]
  by_cases h74 : f.show_ = some "74"
  case pos =>
    simp [gutiFieldOut, hn, h65, h69, h72, h255, h70, h74] at hok
    obtain ⟨hs, -⟩ := hok; subst hs; simp [hoOk]
  by_cases h81 : f.show_ = some "81"
  case pos =>
    simp [gutiFieldOut, hn, h65, h69, h72, h255, h70, h74, h81] at hok
    obtain ⟨hs, -⟩ := hok; subst hs; simp [gutiReset, hoOk]
  by_cases h83 : f.show_ = some "83"
  case pos =>
    simp [gutiFieldOut, hn, h65, h69, h72, h255, h70, h74, h81, h83] at hok
    obtain ⟨hs, -⟩ := hok; subst hs; simp [hoOk]
  by_cases h92 : f.show_ = some "92"
  case pos =>
    simp [gutiFieldOut, hn, h65, h69, h72, h255, h70, h74, h81, h83, h92] at hok
    obtain ⟨hs, -⟩ := hok; subst hs; simp [hoOk]
  by_cases h86 : f.show_ = some "86"
  case pos =>
    simp [gutiFieldOut, hn, h65, h69, h72, h255, h70, h74, h81, h83, h92, h86] at hok
    obtain ⟨hs, -⟩ := hok; subst hs; simp [hoOk]
  by_cases h94 : f.show_ = some "94"
  case pos =>
    simp [gutiFieldOut, hn, h65, h69, h72, h255, h70, h74, h81, h83, h92, h86, h94] at hok
    obtain ⟨hs, -⟩ := hok; subst hs; simp [hoOk]
  by_cases h95 : f.show_ = some "95"
  case pos =>
    simp [gutiFieldOut, hn, h65, h69, h72, h255, h70, h74, h81, h83, h92, h86, h94, h95] at hok
    obtain ⟨hs, -⟩ := hok; subst hs; simp [hoOk]
  simp [gutiFieldOut, hn, h65, h69, h72, h255, h70, h74, h81, h83, h92, h86, h94, h95] at hok
  obtain ⟨hs, -⟩ := hok; subst hs; simp [hoOk]

theorem gutiC6auxRrc (s : GutiState) (now : Int) (f : XmlField)
    (s' : GutiState) (pubs : List KpiRec)
    (hok : gutiHandleMsg s ⟨.rrc, now, [f]⟩ = .ok (s', pubs)) :
    hoOk s.hoIdentification s'.hoIdentification now ∧
    hoOk s.hoSecurity s'.hoSecurity now ∧
    hoOk s.hoGUTI s'.hoGUTI now ∧
    hoOk s.hoAuthentication s'.hoAuthentication now ∧
    hoOk s.hoDetach s'.hoDetach now ∧
    hoOk s.hoTAU s'.hoTAU now := by
  obtain ⟨nm, sh, sn, vl⟩ := f
  simp only [gutiHandleMsg, List.foldlM_cons, List.foldlM_nil, gutiFieldRrc] at hok
  cases sn <;> simp at hok <;> (try split_ifs at hok) <;>
    (try rcases hok with ⟨rfl, rfl⟩) <;> (try split_ifs) <;>
    (try simp_all [gutiReset, hoOk, apply_ite]) <;> (try omega)

/-- C6 counterexample: in the Identification analyzer, two incoming Detach
Requests at t=5 and t=10 drive the shared-table Detach entry directly from
the timestamp 5 to the timestamp 10 — a t→t' transition the claim forbids. -/
theorem tableC6_counterexample :
    idRun idInit [emmInMsg "69" 5] = .ok ({ idInit with hoDetach := 5 }, []) ∧
    idRun idInit [emmInMsg "69" 5, emmInMsg "69" 10] =
      .ok ({ idInit with hoDetach := 10 }, []) ∧
    (5 : Int) ≠ datetimeMin ∧ (10 : Int) ≠ datetimeMin ∧ (5 : Int) ≠ 10 := by
  refine ⟨by rfl, by rfl, by decide, by decide, by decide⟩

/-- C6 (amended): in each of the six analyzers that maintain the shared
procedure-timestamp table (Identification, TAU, Security Mode, Detach,
Authentication, GUTI), handling any single-field message moves each table
entry only to its old value, to the sentinel ⊥, or to the current message's
timestamp.  Both halves of the original claim fail: a repeated start event
overwrites an entry directly from one timestamp to another (the
counterexample), and not every termination event writes ⊥ — the Security
Mode analyzer's outgoing Detach Accept (line 180) writes the current
timestamp into the Detach entry, and the Authentication analyzer's incoming
TAU Reject (lines 103-105) clears the Detach entry while leaving the TAU
entry's timestamp in place. -/
theorem tableC6_amended :
    (∀ (s : IdState) (ty : MsgType) (now : Int) (f : XmlField) (s' : IdState)
        (pubs : List KpiRec),
        idHandleMsg s ⟨ty, now, [f]⟩ = .ok (s', pubs) →
        hoOk s.hoIdentification s'.hoIdentification now ∧
        hoOk s.hoSecurity s'.hoSecurity now ∧
        hoOk s.hoGUTI s'.hoGUTI now ∧
        hoOk s.hoAuthentication s'.hoAuthentication now ∧
        hoOk s.hoDetach s'.hoDetach now ∧
        hoOk s.hoTAU s'.hoTAU now) ∧
    (∀ (s : TauState) (ty : MsgType) (now : Int) (f : XmlField) (s' : TauState)
        (pubs : List KpiRec),
        tauHandleMsg s ⟨ty, now, [f]⟩ = .ok (s', pubs) →
        hoOk s.hoIdentification s'.hoIdentification now ∧
        hoOk s.hoSecurity s'.hoSecurity now ∧
        hoOk s.hoGUTI s'.hoGUTI now ∧
        hoOk s.hoAuthentication s'.hoAuthentication now ∧
        hoOk s.hoDetach s'.hoDetach now ∧
        hoOk s.hoTAU s'.hoTAU now) ∧
    (∀ (s : SecState) (ty : MsgType) (now : Int) (f : XmlField) (s' : SecState)
        (pubs : List KpiRec),
        secHandleMsg s ⟨ty, now, [f]⟩ = .ok (s', pubs) →
        hoOk s.hoIdentification s'.hoIdentification now ∧
        hoOk s.hoSecurity s'.hoSecurity now ∧
        hoOk s.hoGUTI s'.hoGUTI now ∧
        hoOk s.hoAuthentication s'.hoAuthentication now ∧
        hoOk s.hoDetach s'.hoDetach now ∧
        hoOk s.hoTAU s'.hoTAU now) ∧
    (∀ (s : DetachState) (ty : MsgType) (now : Int) (f : XmlField) (s' : DetachState)
        (pubs : List KpiRec),
        detachHandleMsg s ⟨ty, now, [f]⟩ = .ok (s', pubs) →
        hoOk s.hoIdentification s'.hoIdentification now ∧
        hoOk s.hoSecurity s'.hoSecurity now ∧
        hoOk s.hoGUTI s'.hoGUTI now ∧
        hoOk s.hoAuthentication s'.hoAuthentication now ∧
        hoOk s.hoDetach s'.hoDetach now ∧
        hoOk s.hoTAU s'.hoTAU now) ∧
    (∀ (s : AuthState) (ty : MsgType) (now : Int) (f : XmlField) (s' : AuthState)
        (pubs : List KpiRec),
        authHandleMsg s ⟨ty, now, [f]⟩ = .ok (s', pubs) →
        hoOk s.hoIdentification s'.hoIdentification now ∧
        hoOk s.hoSecurity s'.hoSecurity now ∧
        hoOk s.hoGUTI s'.hoGUTI now ∧
        hoOk s.hoAuthentication s'.hoAuthentication now ∧
        hoOk s.hoDetach s'.hoDetach now ∧
        hoOk s.hoTAU s'.hoTAU now) ∧
    (∀ (s : GutiState) (ty : MsgType) (now : Int) (f : XmlField) (s' : GutiState)
        (pubs : List KpiRec),
        gutiHandleMsg s ⟨ty, now, [f]⟩ = .ok (s', pubs) →
        hoOk s.hoIdentification s'.hoIdentification now ∧
        hoOk s.hoSecurity s'.hoSecurity now ∧
        hoOk s.hoGUTI s'.hoGUTI now ∧
        hoOk s.hoAuthentication s'.hoAuthentication now ∧
        hoOk s.hoDetach s'.hoDetach now ∧
        hoOk s.hoTAU s'.hoTAU now) ∧
    (secHandleMsg { secInit with hoDetach := 5 }
        ⟨.emmOut, 8, [⟨some "nas_eps.nas_msg_emm_type", some "70", none, none⟩]⟩ =
      .ok ({ secInit with hoDetach := 8 }, []) ∧ (8 : Int) ≠ datetimeMin) ∧
    (authHandleMsg { authInit with hoTAU := 5, hoDetach := 7 }
        ⟨.emmIn, 9, [⟨some "nas_eps.nas_msg_emm_type", some "75", none, none⟩]⟩ =
      .ok ({ authInit with hoTAU := 5 }, []) ∧ (5 : Int) ≠ datetimeMin) := by
  refine ⟨?_, ?_, ?_, ?_, ?_, ?_, ⟨by rfl, by decide⟩, ⟨by rfl, by decide⟩⟩
  · intro s ty now f s' pubs hok
    cases ty with
    | emmIn => exact tableC6auxIn s now f s' pubs hok
    | emmOut => exact tableC6auxOut s now f s' pubs hok
    | rrc => exact tableC6auxRrc s now f s' pubs hok
  · intro s ty now f s' pubs hok
    cases ty with
    | emmIn => exact tauC6auxIn s now f s' pubs hok
    | emmOut => exact tauC6auxOut s now f s' pubs hok
    | rrc => exact tauC6auxRrc s now f s' pubs hok
  · intro s ty now f s' pubs hok
    cases ty with
    | emmIn => exact secC6auxIn s now f s' pubs hok
    | emmOut => exact secC6auxOut s now f s' pubs hok
    | rrc => exact secC6auxRrc s now f s' pubs hok
  · intro s ty now f s' pubs hok
    cases ty with
    | emmIn => exact detachC6auxIn s now f s' pubs hok
    | emmOut => exact detachC6auxOut s now f s' pubs hok
    | rrc => exact detachC6auxRrc s now f s' pubs hok
  · intro s ty now f s' pubs hok
    cases ty with
    | emmIn => exact authC6auxIn s now f s' pubs hok
    | emmOut => exact authC6auxOut s now f s' pubs hok
    | rrc => exact authC6auxRrc s now f s' pubs hok
  · intro s ty now f s' pubs hok
    cases ty with
    | emmIn => exact gutiC6auxIn s now f s' pubs hok
    | emmOut => exact gutiC6auxOut s now f s' pubs hok
    | rrc => exact gutiC6auxRrc s now f s' pubs hok

/-- C6 witness: the amended transition property applied to the concrete
second Detach Request, whose handling overwrites entry 5 with 10. -/
theorem tableC6_witness :
    hoOk ({ idInit with hoDetach := 5 } : IdState).hoIdentification
      ({ idInit with hoDetach := 10 } : IdState).hoIdentification 10 ∧
    hoOk ({ idInit with hoDetach := 5 } : IdState).hoSecurity
      ({ idInit with hoDetach := 10 } : IdState).hoSecurity 10 ∧
    hoOk ({ idInit with hoDetach := 5 } : IdState).hoGUTI
      ({ idInit with hoDetach := 10 } : IdState).hoGUTI 10 ∧
    hoOk ({ idInit with hoDetach := 5 } : IdState).hoAuthentication
      ({ idInit with hoDetach := 10 } : IdState).hoAuthentication 10 ∧
    hoOk ({ idInit with hoDetach := 5 } : IdState).hoDetach
      ({ idInit with hoDetach := 10 } : IdState).hoDetach 10 ∧
    hoOk ({ idInit with hoDetach := 5 } : IdState).hoTAU
      ({ idInit with hoDetach := 10 } : IdState).hoTAU 10 :=
  tableC6_amended.1 { idInit with hoDetach := 5 } .emmIn 10
    ⟨some "nas_eps.nas_msg_emm_type", some "69", none, none⟩
    { idInit with hoDetach := 10 } [] (by rfl)

/-- C7: on an RRC message whose reestablishmentCause showname contains
"handoverFailure", the Security Mode analyzer increments
SECURITY_HANDOVER_FAILURE and resets exactly when its Security entry is
non-⊥, equal to the table maximum, and at most 600 s old (the non-⊥ clause
is subsumed by the window once the current timestamp is non-negative); and
the concrete scenario IN(93) at t=100 followed by the handover RRC at t=200
publishes KPI_Retainability_SECURITY_HANDOVER_FAILURE = 1. -/
theorem secHandoverC7 :
    (∀ (s : SecState) (now : Int) (sn : String) (s' : SecState) (pubs : List KpiRec),
        0 ≤ now →
        containsSub sn "handoverFailure" = true →
        secHandleMsg s
            ⟨.rrc, now, [⟨some "lte-rrc.reestablishmentCause", none, some sn, none⟩]⟩ =
          .ok (s', pubs) →
        ((s'.kpi.HANDOVER = s.kpi.HANDOVER + 1 ∧ s'.pending_security_mode = false ∧
            s'.hoSecurity = datetimeMin) ↔
          (s.hoSecurity ≠ datetimeMin ∧ s.hoSecurity = secMax s ∧
            0 ≤ now - s.hoSecurity ∧ now - s.hoSecurity ≤ 600))) ∧
    secRun secInit
        [⟨.emmIn, 100, [⟨some "nas_eps.nas_msg_emm_type", some "93", none, none⟩]⟩,
         ⟨.rrc, 200, [⟨some "lte-rrc.reestablishmentCause", none,
                       some "reestablishmentCause: handoverFailure (1)", none⟩]⟩] =
      .ok ({ secInit with kpi := ⟨0, 0, 0, 0, 1⟩ },
           [⟨"KPI_Retainability_SECURITY_HANDOVER_FAILURE", .i 1, 200⟩]) := by
  constructor
  · intro s now sn s' pubs h0 hsn hok
    have hmin : datetimeMin = -62135596800 := rfl
    simp only [secHandleMsg, List.foldlM_cons, List.foldlM_nil, secFieldRrc] at hok
    simp [hsn] at hok
    split_ifs at hok with h1 h2
    · rcases hok with ⟨rfl, rfl⟩
      simp only [secReset]
      constructor
      · intro _
        obtain ⟨hw1, hw2⟩ := h2
        refine ⟨by omega, h1, by omega, by omega⟩
      · intro _
        simp
    · rcases hok with ⟨rfl, rfl⟩
      constructor
      · intro hh
        exact absurd hh.1 (by simp)
      · intro hh
        obtain ⟨hne, hmax, hw1, hw2⟩ := hh
        exact absurd ⟨by omega, by omega⟩ h2
    · rcases hok with ⟨rfl, rfl⟩
      constructor
      · intro hh
        exact absurd hh.1 (by simp)
      · intro hh
        exact absurd hh.2.1 h1
  · rfl

/-- State of the Security Mode analyzer after the incoming Security Mode
Command at t=100 of the C7 scenario. -/
def c7MidState : SecState :=
  { secInit with
      security_mode_timestamp := some 100, pending_security_mode := true,
      prev_log := some [⟨some "nas_eps.nas_msg_emm_type", some "93", none, none⟩],
      hoSecurity := 100 }

/-- C7 witness: the handover characterization instantiated at the concrete
scenario state, with every hypothesis discharged by computation. -/
theorem secHandoverC7_witness :
    (({ secInit with kpi := ⟨0, 0, 0, 0, 1⟩ } : SecState).kpi.HANDOVER =
        c7MidState.kpi.HANDOVER + 1 ∧
      ({ secInit with kpi := ⟨0, 0, 0, 0, 1⟩ } : SecState).pending_security_mode = false ∧
      ({ secInit with kpi := ⟨0, 0, 0, 0, 1⟩ } : SecState).hoSecurity = datetimeMin) ↔
    (c7MidState.hoSecurity ≠ datetimeMin ∧ c7MidState.hoSecurity = secMax c7MidState ∧
      0 ≤ (200 : Int) - c7MidState.hoSecurity ∧ (200 : Int) - c7MidState.hoSecurity ≤ 600) :=
  secHandoverC7.1 c7MidState 200 "reestablishmentCause: handoverFailure (1)"
    { secInit with kpi := ⟨0, 0, 0, 0, 1⟩ }
    [⟨"KPI_Retainability_SECURITY_HANDOVER_FAILURE", .i 1, 200⟩]
    (by decide) (by decide) (by rfl)

/-- Stored Detach Request payload for the C8 counterexample: a detach-type
field whose showname says "Re-attach not required" followed by an EMM-cause
field carrying the value 2. -/
def c8PrevLog : List XmlField :=
  [⟨none, none, some "Detach Type: Re-attach not required", none⟩,
   ⟨some "nas_eps.emm.cause", some "2", none, none⟩]

/-- Detach analyzer state with a pending detach whose stored request is
`c8PrevLog`. -/
def c8State : DetachState :=
  { detachInit with
      pending_detach := true, detach_req_timestamp := some 0,
      prev_log := some c8PrevLog }

/-- C8 counterexample: the stored Detach Request contains a "Re-attach not
required" detach-type showname together with cause 2, the claimed trigger,
yet the outgoing TAU Request at t=10 (pending, in window) does not increment
DETACH_COLLISION_FAILURE: the scan keeps only the last subfield's locals and
compares the string-valued cause against the integer 2. -/
theorem detachCollisionC8_counterexample :
    (⟨none, none, some "Detach Type: Re-attach not required", none⟩ : XmlField) ∈ c8PrevLog ∧
    (⟨some "nas_eps.emm.cause", some "2", none, none⟩ : XmlField) ∈ c8PrevLog ∧
    detachHandleMsg c8State
        ⟨.emmOut, 10, [⟨some "nas_eps.nas_msg_emm_type", some "72", none, none⟩]⟩ =
      .ok ({ c8State with hoTAU := 10 }, []) ∧
    ({ c8State with hoTAU := 10 } : DetachState).kpi.COLLISION = 0 := by
  refine ⟨by decide, by decide, by rfl, by decide⟩

/-- C8 (amended): the cause-2 arm is dead code — the scanned `cause_idx` is
the integer −1 or a string and never equals the integer 2 — and only the
last subfield of the stored request survives the scan, so on an outgoing
TAU Request while a detach is pending and in window,
DETACH_COLLISION_FAILURE increments iff the last subfield of `prev_log` has
a showname whose lowercase contains "imsi detach". -/
theorem detachCollisionC8_amended :
    (∀ sub : XmlField, pyEqInt (detachScanStep72 sub).2 2 = false) ∧
    (∀ (s : DetachState) (now t : Int) (L : List XmlField) (lastSub : XmlField)
        (s' : DetachState) (pubs : List KpiRec),
        s.pending_detach = true → s.detach_req_timestamp = some t →
        0 ≤ now - t → now - t ≤ s.threshold →
        s.prev_log = some L → L.getLast? = some lastSub →
        detachHandleMsg s
            ⟨.emmOut, now, [⟨some "nas_eps.nas_msg_emm_type", some "72", none, none⟩]⟩ =
          .ok (s', pubs) →
        (s'.kpi.COLLISION = s.kpi.COLLISION + 1 ↔
          containsSub (detachScanStep72 lastSub).1 "imsi detach" = true)) := by
  constructor
  · intro sub
    rcases sub with ⟨nm, sh, sn, vl⟩
    rcases sn with _ | sn <;> simp only [detachScanStep72] <;> (try split_ifs) <;>
      simp [pyEqInt]
  · intro s now t L lastSub s' pubs hp hts hw1 hw2 hprev hlast hok
    have hdead : ∀ sub : XmlField, pyEqInt (detachScanStep72 sub).2 2 = false := by
      intro sub
      rcases sub with ⟨nm, sh, sn, vl⟩
      rcases sn with _ | sn <;> simp only [detachScanStep72] <;> (try split_ifs) <;>
        simp [pyEqInt]
    simp only [detachHandleMsg, List.foldlM_cons, List.foldlM_nil, detachFieldOut] at hok
    simp [hp, hts, hprev, hlast, hw1, hw2, hdead lastSub] at hok
    by_cases himsi : containsSub (detachScanStep72 lastSub).1 "imsi detach" = true
    · simp [himsi] at hok
      rcases hok with ⟨rfl, rfl⟩
      simp [detachReset, himsi]
    · simp [himsi] at hok
      rcases hok with ⟨rfl, rfl⟩
      simp [himsi]

/-- Detach analyzer state whose stored request's last subfield says
"IMSI detach". -/
def c8ImsiState : DetachState :=
  { detachInit with
      pending_detach := true, detach_req_timestamp := some 0,
      prev_log := some [⟨none, none, some "Detach Type: IMSI detach", none⟩] }

/-- C8 witness: the amended characterization instantiated where the last
stored subfield contains "IMSI detach", so the counter does increment. -/
theorem detachCollisionC8_witness :
    ({ detachInit with kpi := ⟨0, 1, 0, 0⟩, hoTAU := 10 } : DetachState).kpi.COLLISION =
        c8ImsiState.kpi.COLLISION + 1 ↔
      containsSub
        (detachScanStep72 ⟨none, none, some "Detach Type: IMSI detach", none⟩).1
        "imsi detach" = true :=
  detachCollisionC8_amended.2 c8ImsiState 10 0
    [⟨none, none, some "Detach Type: IMSI detach", none⟩]
    ⟨none, none, some "Detach Type: IMSI detach", none⟩
    { detachInit with kpi := ⟨0, 1, 0, 0⟩, hoTAU := 10 }
    [⟨"KPI_Retainability_DETACH_COLLISION_FAILURE", .s "1", 10⟩]
    (by decide) (by rfl) (by decide) (by decide) (by rfl) (by rfl) (by rfl)

/-- A reestablishmentCause field with a present showname (or any other field)
is handled without an exception. -/
theorem idFieldRrc_ok (p : IdPack) (now : Int) (f : XmlField)
    (h : ¬(f.name = some "lte-rrc.reestablishmentCause" ∧ f.showname = none)) :
    ∃ q, idFieldRrc p now f = .ok q := by
  by_cases h1 : f.name = some "lte-rrc.reestablishmentCause"
  · have h2 : f.showname ≠ none := fun hh => h ⟨h1, hh⟩
    cases hsn : f.showname with
    | none => exact absurd hsn h2
    | some str =>
      simp only [idFieldRrc, h1, hsn]
      split_ifs <;> exact ⟨_, rfl⟩
  · refine ⟨p, ?_⟩
    simp [idFieldRrc, h1]

/-- The RRC field loop raises exactly when some reestablishmentCause field
lacks a showname. -/
theorem idRrcFoldErr (now : Int) :
    ∀ (fs : List XmlField) (p : IdPack),
      (List.foldlM (fun q f => idFieldRrc q now f) p fs = .error .typeError ↔
        ∃ f ∈ fs, f.name = some "lte-rrc.reestablishmentCause" ∧ f.showname = none) := by
  intro fs
  induction fs with
  | nil =>
    intro p
    constructor
    · intro h; cases h
    · rintro ⟨f, hf, -⟩; cases hf
  | cons f fs ih =>
    intro p
    rw [List.foldlM_cons]
    by_cases hbad : f.name = some "lte-rrc.reestablishmentCause" ∧ f.showname = none
    · have herr : idFieldRrc p now f = .error .typeError := by
        obtain ⟨h1, h2⟩ := hbad
        simp [idFieldRrc, h1, h2]
      rw [herr]
      constructor
      · intro _
        exact ⟨f, by simp, hbad⟩
      · intro _
        rfl
    · obtain ⟨q, hq⟩ := idFieldRrc_ok p now f hbad
      rw [hq]
      show List.foldlM (fun q f => idFieldRrc q now f) q fs = _ ↔ _
      rw [ih q]
      constructor
      · rintro ⟨g, hg, hb⟩
        exact ⟨g, by simp [hg], hb⟩
      · rintro ⟨g, hg, hb⟩
        rcases List.mem_cons.mp hg with rfl | hg2
        · exact absurd hb hbad
        · exact ⟨g, hg2, hb⟩

/-- C9 counterexample: an RRC message containing a reestablishmentCause field
with no showname makes the Identification analyzer's callback raise a
TypeError — the error escapes handle(msg). -/
theorem exceptionC9_counterexample :
    idHandleMsg idInit
        ⟨.rrc, 0, [⟨some "lte-rrc.reestablishmentCause", none, none, none⟩]⟩ =
      .error .typeError := by
  rfl

/-- C9 (amended): absent fields are silently ignored except where a showname
is dereferenced unguarded — for RRC messages, the Identification analyzer's
callback raises TypeError exactly when some lte-rrc.reestablishmentCause
field lacks a showname; an outgoing gsm_a.ie.mobileid.type field without a
showname likewise raises. -/
theorem exceptionC9_amended :
    (∀ (s : IdState) (now : Int) (fs : List XmlField),
        (idHandleMsg s ⟨.rrc, now, fs⟩ = .error .typeError ↔
          ∃ f ∈ fs, f.name = some "lte-rrc.reestablishmentCause" ∧ f.showname = none)) ∧
    idHandleMsg idInit ⟨.emmOut, 0, [⟨some "gsm_a.ie.mobileid.type", none, none, none⟩]⟩ =
      .error .typeError := by
  constructor
  · intro s now fs
    simpa [idHandleMsg] using idRrcFoldErr now fs (s, [])
  · rfl

/-- C9 witness: the characterization applied at the concrete raising input. -/
theorem exceptionC9_witness :
    idHandleMsg idInit
        ⟨.rrc, 0, [⟨some "lte-rrc.reestablishmentCause", none, none, none⟩]⟩ =
        .error .typeError ↔
      ∃ f ∈ [(⟨some "lte-rrc.reestablishmentCause", none, none, none⟩ : XmlField)],
        f.name = some "lte-rrc.reestablishmentCause" ∧ f.showname = none :=
  exceptionC9_amended.1 idInit 0 [⟨some "lte-rrc.reestablishmentCause", none, none, none⟩]

/-- Each qualifying subfield adds one COLLISION increment and one
publication; the loop keeps going over the remaining subfields even after
the reset performed by an increment. -/
theorem secDetachScan_spec (now : Int) :
    ∀ (fs : List XmlField) (q : SecPack),
      (secDetachScan now q fs).1.kpi.COLLISION =
        q.1.kpi.COLLISION + fs.countP secQualifies ∧
      (secDetachScan now q fs).2.length = q.2.length + fs.countP secQualifies := by
  intro fs
  induction fs with
  | nil => intro q; simp [secDetachScan]
  | cons sub fs ih =>
    intro q
    by_cases hq : secQualifies sub
    · rw [show secDetachScan now q (sub :: fs) =
            secDetachScan now
              (secReset { q.1 with kpi := { q.1.kpi with COLLISION := q.1.kpi.COLLISION + 1 } },
               q.2 ++ [⟨"KPI_Retainability_SECURITY_COLLISION_FAILURE",
                        .s (toString (q.1.kpi.COLLISION + 1)), now⟩]) fs from by
          simp [secDetachScan, hq]]
      obtain ⟨h1, h2⟩ := ih
        (secReset { q.1 with kpi := { q.1.kpi with COLLISION := q.1.kpi.COLLISION + 1 } },
         q.2 ++ [⟨"KPI_Retainability_SECURITY_COLLISION_FAILURE",
                  .s (toString (q.1.kpi.COLLISION + 1)), now⟩])
      rw [h1, h2]
      simp [secReset, List.countP_cons, hq]
      constructor <;> omega
    · rw [show secDetachScan now q (sub :: fs) = secDetachScan now q fs from by
          simp [secDetachScan, hq]]
      obtain ⟨h1, h2⟩ := ih q
      rw [h1, h2]
      simp [List.countP_cons, hq]

/-- A field with another name is ignored by the outgoing Security handler. -/
theorem secFieldOut_noop (p : SecPack) (now : Int) (fields : List XmlField)
    (f : XmlField) (h : f.name ≠ some "nas_eps.nas_msg_emm_type") :
    secFieldOut p now fields f = .ok p := by
  simp only [secFieldOut]
  rw [if_neg]
  simp [h]

/-- Folding the outgoing Security handler over fields with other names
changes nothing. -/
theorem secFoldOut_noop (now : Int) (fields : List XmlField) :
    ∀ (rest : List XmlField) (p : SecPack),
      (∀ g ∈ rest, g.name ≠ some "nas_eps.nas_msg_emm_type") →
      List.foldlM (fun q g => secFieldOut q now fields g) p rest = .ok p := by
  intro rest
  induction rest with
  | nil => intro p _; rfl
  | cons g gs ih =>
    intro p h
    rw [List.foldlM_cons, secFieldOut_noop p now fields g (h g (by simp))]
    exact ih p (fun x hx => h x (by simp [hx]))

/-- With only the first field named as the EMM discriminator, the callback
reduces to the handling of that field. -/
theorem secHandleMsgCons (s : SecState) (now : Int) (f : XmlField)
    (rest : List XmlField) (h : ∀ g ∈ rest, g.name ≠ some "nas_eps.nas_msg_emm_type") :
    secHandleMsg s ⟨.emmOut, now, f :: rest⟩ = secFieldOut (s, []) now (f :: rest) f := by
  simp only [secHandleMsg, List.foldlM_cons]
  cases hstep : secFieldOut (s, []) now (f :: rest) f with
  | error e => rfl
  | ok X => exact secFoldOut_noop now (f :: rest) rest X h

/-- C10: an outgoing Detach Request while the security mode procedure is
pending and within the window increments SECURITY_COLLISION_FAILURE once per
subfield whose showname is present, non-empty and free of "Switch off" —
one message can increment several times, the loop continuing after the
state reset of the first increment. -/
theorem secCollisionC10 (s : SecState) (now t : Int) (f : XmlField)
    (rest : List XmlField) (s' : SecState) (pubs : List KpiRec)
    (hp : s.pending_security_mode = true) (hts : s.security_mode_timestamp = some t)
    (hw1 : 0 ≤ now - t) (hw2 : now - t ≤ s.threshold)
    (hname : f.name = some "nas_eps.nas_msg_emm_type") (hshow : f.show_ = some "69")
    (hrest : ∀ g ∈ rest, g.name ≠ some "nas_eps.nas_msg_emm_type")
    (hok : secHandleMsg s ⟨.emmOut, now, f :: rest⟩ = .ok (s', pubs)) :
    s'.kpi.COLLISION = s.kpi.COLLISION + (f :: rest).countP secQualifies ∧
    pubs.length = (f :: rest).countP secQualifies := by
  rw [secHandleMsgCons s now f rest hrest] at hok
  simp only [secFieldOut, hname, hshow] at hok
  simp [hp, hts, hw1, hw2] at hok
  obtain ⟨h1, h2⟩ := secDetachScan_spec now (f :: rest) (s, [])
  rcases hok with ⟨rfl, rfl⟩
  simp_all

/-- Security Mode analyzer state with a pending security mode command at t=0. -/
def c10State : SecState :=
  { secInit with pending_security_mode := true, security_mode_timestamp := some 0 }

/-- The outgoing Detach Request of the C10 witness: two qualifying subfields. -/
def c10Fields : List XmlField :=
  [⟨some "nas_eps.nas_msg_emm_type", some "69", none, none⟩,
   ⟨none, none, some "Detach Type: EPS detach", none⟩,
   ⟨none, none, some "Cause: congestion", none⟩]

/-- C10 witness: the per-subfield counting law applied to a concrete Detach
Request with two qualifying subfields — the counter rises by two in one
message, showing the loop continues past the first reset. -/
theorem secCollisionC10_witness :
    ({ secInit with kpi := ⟨0, 0, 0, 2, 0⟩, hoDetach := 5 } : SecState).kpi.COLLISION =
      c10State.kpi.COLLISION + c10Fields.countP secQualifies ∧
    ([⟨"KPI_Retainability_SECURITY_COLLISION_FAILURE", KpiVal.s "1", 5⟩,
      ⟨"KPI_Retainability_SECURITY_COLLISION_FAILURE", KpiVal.s "2", 5⟩] : List KpiRec).length =
      c10Fields.countP secQualifies :=
  secCollisionC10 c10State 5 0
    ⟨some "nas_eps.nas_msg_emm_type", some "69", none, none⟩
    [⟨none, none, some "Detach Type: EPS detach", none⟩,
     ⟨none, none, some "Cause: congestion", none⟩]
    { secInit with kpi := ⟨0, 0, 0, 2, 0⟩, hoDetach := 5 }
    [⟨"KPI_Retainability_SECURITY_COLLISION_FAILURE", KpiVal.s "1", 5⟩,
     ⟨"KPI_Retainability_SECURITY_COLLISION_FAILURE", KpiVal.s "2", 5⟩]
    (by decide) (by rfl) (by decide) (by decide) (by rfl) (by rfl)
    (by decide) (by rfl)

/-- C4 witness: the amended fingerprint rule applied to a concrete second
Attach Request within the window. -/
theorem attachIEC4_witness :
    ∃ (s' : AttachState) (pubs : List KpiRec),
      attachHandleMsg
          { attachInit with
              pending_attach := true, attach_req_timestamp := some 0,
              prev_log := some c4PrevFields }
          ⟨.emmOut, 5, [⟨some "nas_eps.nas_msg_emm_type", some "65", none, none⟩]⟩ =
        .ok (s', pubs) ∧
      (s'.kpi.CONCURRENT =
          ({ attachInit with
               pending_attach := true, attach_req_timestamp := some 0,
               prev_log := some c4PrevFields } : AttachState).kpi.CONCURRENT + 1 ↔
        attachFrIE c4PrevFields ≠
          attachFrIE [⟨some "nas_eps.nas_msg_emm_type", some "65", none, none⟩]) :=
  attachIEC4_amended
    { attachInit with
        pending_attach := true, attach_req_timestamp := some 0,
        prev_log := some c4PrevFields }
    5 0 c4PrevFields [] ⟨some "nas_eps.nas_msg_emm_type", some "65", none, none⟩
    (by rfl) (by rfl) (by decide) (by decide) (by rfl) (by rfl) (by rfl)
    (by simp)
